import Mathlib

/-!
# Question paper generator: `server.js`

A shallow embedding of the in-memory question bank, the ingestion step
(`processExcelData`), the three selection policies (`generateMid1Questions`,
`generateMid2Questions`, `generateSpecialMidQuestions`), the sampling helper
(`getRandomQuestions`) and the `/api/generate` request handler.

JavaScript values are modelled only as far as the program inspects them:
strict equality (`===`, `!==`), truthiness (`!x`) and interpolation into an
error message.  Every call of `Array.prototype.sort` with a random comparator is
modelled by an explicit `Shuffle` argument: the rearrangement that call performs.
-/

namespace QuestionPaper

/-! ## JavaScript values -/

/-- JavaScript numbers up to what `===` distinguishes: `NaN`, the two infinities and the
finite values (`+0` and `-0` are one value, every double is a rational). -/
inductive JSNumber where
  | nan
  | posInf
  | negInf
  | finite (x : ℚ)
  deriving DecidableEq

/-- The values a parsed JSON body or a spreadsheet cell can hold.  Objects and arrays are
compared by reference and their contents are never read by the program. -/
inductive JSValue where
  | undefined
  | null
  | boolean (b : Bool)
  | number (n : JSNumber)
  | string (s : String)
  | object (ref : Nat)
  deriving DecidableEq

/-- Strict equality `a === b` of two numbers: `NaN` equals nothing, not even itself. -/
def JSNumber.strictEq (a b : JSNumber) : Bool :=
  match a, b with
  | .nan, _ => false
  | _, .nan => false
  | a, b => decide (a = b)

/-- Strict equality `a === b` of two values: same type and same value. -/
def JSValue.strictEq (a b : JSValue) : Bool :=
  match a, b with
  | .number x, .number y => x.strictEq y
  | a, b => decide (a = b)

/-- Truthiness of a value, the negation of `!v`: `undefined`, `null`, `false`, `0`,
`NaN` and the empty string are falsy. -/
def JSValue.truthy : JSValue → Bool
  | .undefined => false
  | .null => false
  | .boolean b => b
  | .number .nan => false
  | .number (.finite x) => decide (x ≠ 0)
  | .number _ => true
  | .string s => decide (s ≠ "")
  | .object _ => true

/-- The `message` of a thrown `Error`, and the `error` field of a JSON error response.
`template pre v` is the template literal whose text is `pre` followed by the
interpolated value `v`; `concat pre m` is `pre + m`; `engine what` is the
engine-defined message of a `TypeError` raised by the runtime. -/
inductive Message where
  | text (s : String)
  | template (pre : String) (v : JSValue)
  | concat (pre : String) (m : Message)
  | engine (what : String)
  deriving DecidableEq

deriving instance DecidableEq for Except

/-! ## Data model -/

/-- One row of `XLSX.utils.sheet_to_json`: the cells read by `processExcelData`, each
`undefined` when the column is missing.  `BTLevel` is the column `B.T Level` and
`SubjectCode` the column `Subject Code`. -/
structure Row where
  Unit : JSValue
  Question : JSValue
  BTLevel : JSValue
  SubjectCode : JSValue
  Subject : JSValue
  Branch : JSValue
  Regulation : JSValue
  Year : JSValue
  Sem : JSValue
  Month : JSValue
  deriving DecidableEq

/-- The object built per row by `processExcelData`. -/
structure QuestionRecord where
  id : Nat
  unit : JSNumber
  question : JSValue
  btLevel : JSValue
  subjectCode : JSValue
  subject : JSValue
  branch : JSValue
  regulation : JSValue
  year : JSValue
  semester : JSValue
  month : JSValue
  deriving DecidableEq

/-- The outcome of one `sort` call with a random comparator: the rearrangement of the array
it was called on. -/
structure Shuffle where
  apply : List QuestionRecord → List QuestionRecord
  perm : ∀ l, (apply l).Perm l

/-- The shuffle that leaves every array as it is. -/
def Shuffle.identity : Shuffle := ⟨fun l => l, fun l => List.Perm.refl l⟩

/-- The shuffle that reverses every array. -/
def Shuffle.reversal : Shuffle := ⟨fun l => l.reverse, fun l => List.reverse_perm l⟩

/-! ## Helper functions of `server.js` -/

/-- `processExcelData(data)`: `data.map` with the row and its 0-based index, building one
record per row with `id: index + 1`.  The builtin `parseInt` is an argument. -/
def processExcelData (parseInt : JSValue → JSNumber) (data : List Row) : List QuestionRecord :=
  data.mapIdx fun index row =>
    { id := index + 1
      unit := parseInt row.Unit
      question := row.Question
      btLevel := row.BTLevel
      subjectCode := row.SubjectCode
      subject := row.Subject
      branch := row.Branch
      regulation := row.Regulation
      year := row.Year
      semester := row.Sem
      month := row.Month }

/-- `getRandomQuestions(questions, count)`: shuffle a copy, keep the first `count`. -/
def getRandomQuestions (s : Shuffle) (questions : List QuestionRecord) (count : Nat) :
    List QuestionRecord :=
  let shuffled := s.apply questions
  shuffled.take count

/-- `generateMid1Questions()` on a loaded bank; `s1 .. s4` are the four shuffles in call
order. -/
def generateMid1Questions (questionBank : List QuestionRecord) (s1 s2 s3 s4 : Shuffle) :
    Except Message (List QuestionRecord) :=
  let unit1Questions := questionBank.filter fun q => q.unit.strictEq (.finite 1)
  let unit2Questions := questionBank.filter fun q => q.unit.strictEq (.finite 2)
  let unit3Questions := questionBank.filter fun q => q.unit.strictEq (.finite 3)
  if unit1Questions.length < 2 || unit2Questions.length < 2 || unit3Questions.length < 1 then
    .error (.text "Insufficient questions in Unit 1 ,Unit 2 or Unit 3")
  else
    .ok (getRandomQuestions s1 unit1Questions 2 ++
      getRandomQuestions s2 unit2Questions 2 ++
      getRandomQuestions s3 unit3Questions 1 ++
      getRandomQuestions s4 (unit1Questions ++ unit2Questions) 1)

/-- `generateMid2Questions()` on a loaded bank; `s1 .. s4` are the four shuffles in call
order. -/
def generateMid2Questions (questionBank : List QuestionRecord) (s1 s2 s3 s4 : Shuffle) :
    Except Message (List QuestionRecord) :=
  let unit3Questions := questionBank.filter fun q => q.unit.strictEq (.finite 3)
  let unit4Questions := questionBank.filter fun q => q.unit.strictEq (.finite 4)
  let unit5Questions := questionBank.filter fun q => q.unit.strictEq (.finite 5)
  if unit3Questions.length < 1 || unit4Questions.length < 2 || unit5Questions.length < 2 then
    .error (.text "Insufficient questions in Units 3, 4, or 5")
  else
    .ok (getRandomQuestions s1 unit3Questions 1 ++
      getRandomQuestions s2 unit4Questions 2 ++
      getRandomQuestions s3 unit5Questions 2 ++
      getRandomQuestions s4 (unit4Questions ++ unit5Questions) 1)

/-- `generateSpecialMidQuestions(mainUnit)` on a loaded bank; `s1`, `s2` are the shuffles of
the two draws and `s3` is the final `selected.sort(...)`. -/
def generateSpecialMidQuestions (questionBank : List QuestionRecord) (mainUnit : JSValue)
    (s1 s2 s3 : Shuffle) : Except Message (List QuestionRecord) :=
  let mainUnitQuestions := questionBank.filter fun q => (JSValue.number q.unit).strictEq mainUnit
  let otherUnitQuestions :=
    questionBank.filter fun q => !(JSValue.number q.unit).strictEq mainUnit
  if mainUnitQuestions.length < 2 then
    .error (.template "Insufficient questions in Unit " mainUnit)
  else if otherUnitQuestions.length < 4 then
    .error (.text "Insufficient questions in other units")
  else
    let selected :=
      getRandomQuestions s1 mainUnitQuestions 2 ++ getRandomQuestions s2 otherUnitQuestions 4
    .ok (s3.apply selected)

/-! ## The `/api/generate` handler -/

/-- The two properties the handler destructures from `req.body`, the object parsed by
`express.json()`; a property that is absent is `undefined`. -/
structure RequestBody where
  paperType : JSValue
  mainUnit : JSValue

/-- The `paperDetails` object of a successful response. -/
structure PaperDetails where
  subject : JSValue
  subjectCode : JSValue
  branch : JSValue
  regulation : JSValue
  year : JSValue
  semester : JSValue
  deriving DecidableEq

/-- What the handler sends: an error object under `res.status(status)`, or the success object
of `res.json(...)` (status 200). -/
inductive Response where
  | error (status : Nat) (error : Message)
  | success (questions : List QuestionRecord) (paperDetails : PaperDetails)
  deriving DecidableEq

/-- The HTTP status of a response. -/
def Response.status : Response → Nat
  | .error status _ => status
  | .success _ _ => 200

/-- The `catch` block of the handler: status 500 with the prefixed message. -/
def generateCatch (error : Message) : Response :=
  .error 500 (.concat "Error generating questions: " error)

/-- The tail of the `try` block: the success object, whose `paperDetails` reads
`selectedQuestions[0]`; on an empty array that read throws a `TypeError`. -/
def respond (selectedQuestions : List QuestionRecord) : Response :=
  match selectedQuestions with
  | [] => generateCatch (.engine "cannot read property subject of undefined")
  | q0 :: _ =>
    .success selectedQuestions
      { subject := q0.subject
        subjectCode := q0.subjectCode
        branch := q0.branch
        regulation := q0.regulation
        year := q0.year
        semester := q0.semester }

/-- The handler of `POST /api/generate`: `questionBank` is the module variable (`none` for
`null`), `body` is `req.body`, `s1 .. s4` are the shuffles of the request in call order. -/
def generate (questionBank : Option (List QuestionRecord)) (body : RequestBody)
    (s1 s2 s3 s4 : Shuffle) : Response :=
  match questionBank with
  | none => .error 400 (.text "No questions available. Please upload an Excel file first.")
  | some bank =>
    if body.paperType.strictEq (.string "mid1") then
      match generateMid1Questions bank s1 s2 s3 s4 with
      | .ok selectedQuestions => respond selectedQuestions
      | .error e => generateCatch e
    else if body.paperType.strictEq (.string "mid2") then
      match generateMid2Questions bank s1 s2 s3 s4 with
      | .ok selectedQuestions => respond selectedQuestions
      | .error e => generateCatch e
    else if body.paperType.strictEq (.string "special") then
      if !body.mainUnit.truthy then
        .error 400 (.text "Main unit not specified for special mid")
      else
        match generateSpecialMidQuestions bank body.mainUnit s1 s2 s3 with
        | .ok selectedQuestions => respond selectedQuestions
        | .error e => generateCatch e
    else
      .error 400 (.text "Invalid paper type")

/-! ## Vocabulary of the specification -/

/-- Record `q` is a record of unit `m`: its unit is a number, not `NaN`, and that number
is the value `m`. -/
def ofUnit (m : JSValue) (q : QuestionRecord) : Prop :=
  q.unit ≠ .nan ∧ JSValue.number q.unit = m

instance (m : JSValue) : DecidablePred (ofUnit m) := fun q => by
  unfold ofUnit
  exact inferInstance

/-- The unit number `n` as a value. -/
def unitNo (n : ℚ) : JSValue := .number (.finite n)

/-- How many records of the bank are records of unit `m`. -/
def unitCount (bank : List QuestionRecord) (m : JSValue) : Nat :=
  bank.countP fun q => decide (ofUnit m q)

/-- How many records of the bank are not records of unit `m`. -/
def otherCount (bank : List QuestionRecord) (m : JSValue) : Nat :=
  bank.countP fun q => decide (¬ ofUnit m q)

/-- The records of unit number `u`, in bank order: `questionBank.filter(q => q.unit === u)`. -/
def unitQuestions (bank : List QuestionRecord) (u : ℚ) : List QuestionRecord :=
  bank.filter fun q => q.unit.strictEq (.finite u)

/-- The records of unit `m`, in bank order: `questionBank.filter(q => q.unit === mainUnit)`. -/
def mainUnitQuestions (bank : List QuestionRecord) (m : JSValue) : List QuestionRecord :=
  bank.filter fun q => (JSValue.number q.unit).strictEq m

/-- The other records, in bank order: `questionBank.filter(q => q.unit !== mainUnit)`. -/
def otherUnitQuestions (bank : List QuestionRecord) (m : JSValue) : List QuestionRecord :=
  bank.filter fun q => !(JSValue.number q.unit).strictEq m

/-- The identifiers of a list of records, in order. -/
def ids (l : List QuestionRecord) : List Nat := l.map fun q => q.id

/-- The text of a message, given the string conversion of interpolated values. -/
def Message.render (toStr : JSValue → String) : Message → String
  | .text s => s
  | .template pre v => pre ++ toStr v
  | .concat pre m => pre ++ m.render toStr
  | .engine what => what

/-- The text of the `error` field of an error response; a success response has none. -/
def Response.errorText (toStr : JSValue → String) : Response → Option String
  | .error _ m => some (m.render toStr)
  | .success _ _ => none

/-- The record `processExcelData` builds for the row at 0-based position `index`. -/
def recordOfRow (parseInt : JSValue → JSNumber) (index : Nat) (row : Row) : QuestionRecord :=
  { id := index + 1
    unit := parseInt row.Unit
    question := row.Question
    btLevel := row.BTLevel
    subjectCode := row.SubjectCode
    subject := row.Subject
    branch := row.Branch
    regulation := row.Regulation
    year := row.Year
    semester := row.Sem
    month := row.Month }

/-! ## Test data -/

/-- A record with the given identifier and unit; the other fields are `undefined`. -/
def mkRecord (id : Nat) (unit : ℚ) : QuestionRecord :=
  { id := id, unit := .finite unit, question := .undefined, btLevel := .undefined,
    subjectCode := .undefined, subject := .undefined, branch := .undefined,
    regulation := .undefined, year := .undefined, semester := .undefined,
    month := .undefined }

/-- A bank with exactly two unit-1, two unit-2 and one unit-3 record. -/
def bank221 : List QuestionRecord :=
  [mkRecord 1 1, mkRecord 2 1, mkRecord 3 2, mkRecord 4 2, mkRecord 5 3]

/-- A bank with two unit-3 records and four records of the units 1, 2, 4 and 5. -/
def bankSpecial : List QuestionRecord :=
  [mkRecord 1 1, mkRecord 2 3, mkRecord 3 2, mkRecord 4 4, mkRecord 5 3, mkRecord 6 5]

/-- A request body with the given paper type and no main unit. -/
def bodyOf (paperType : String) : RequestBody :=
  { paperType := .string paperType, mainUnit := .undefined }

/-- A bank with one unit-3, two unit-4 and two unit-5 records. -/
def bank122 : List QuestionRecord :=
  [mkRecord 1 3, mkRecord 2 4, mkRecord 3 4, mkRecord 4 5, mkRecord 5 5]

/-- The mid1 selection from `bank221` when only the pooled draw reverses its array. -/
def sampleMid1 : List QuestionRecord :=
  [mkRecord 1 1, mkRecord 2 1, mkRecord 3 2, mkRecord 4 2, mkRecord 5 3, mkRecord 4 2]

/-- The mid2 selection from `bank122` when only the unit-4 draw reverses its array. -/
def sampleMid2 : List QuestionRecord :=
  [mkRecord 1 3, mkRecord 3 4, mkRecord 2 4, mkRecord 4 5, mkRecord 5 5, mkRecord 2 4]

/-- A row whose `Unit` cell is the given value and whose other cells are missing. -/
def mkRow (unit : JSValue) : Row :=
  { Unit := unit, Question := .undefined, BTLevel := .undefined, SubjectCode := .undefined,
    Subject := .undefined, Branch := .undefined, Regulation := .undefined,
    Year := .undefined, Sem := .undefined, Month := .undefined }

/-- Three rows whose `Unit` cells are 7, a text and missing. -/
def sampleRows : List Row :=
  [mkRow (.number (.finite 7)), mkRow (.string "two"), mkRow .undefined]

/-- A stand-in for `parseInt` on the test rows: numbers are kept, everything else is `NaN`. -/
def parseIntStub : JSValue → JSNumber
  | .number n => n
  | _ => .nan

/-- A record with the given identifier whose unit is `NaN`; the other fields are
`undefined`. -/
def nanRecord (id : Nat) : QuestionRecord :=
  { id := id, unit := .nan, question := .undefined, btLevel := .undefined,
    subjectCode := .undefined, subject := .undefined, branch := .undefined,
    regulation := .undefined, year := .undefined, semester := .undefined,
    month := .undefined }

/-- A bank with two unit-3 records, three records of the units 1, 2 and 4, and one record
whose unit is `NaN`. -/
def bankNaN : List QuestionRecord :=
  [mkRecord 1 3, mkRecord 2 3, nanRecord 3, mkRecord 4 1, mkRecord 5 2, mkRecord 6 4]

/-- A bank with three unit-1, three unit-2 and one unit-3 record. -/
def bank331 : List QuestionRecord :=
  [mkRecord 1 1, mkRecord 2 1, mkRecord 3 1, mkRecord 4 2, mkRecord 5 2, mkRecord 6 2,
    mkRecord 7 3]

/-- A bank with one unit-3, three unit-4 and three unit-5 records. -/
def bank133 : List QuestionRecord :=
  [mkRecord 1 3, mkRecord 2 4, mkRecord 3 4, mkRecord 4 4, mkRecord 5 5, mkRecord 6 5,
    mkRecord 7 5]

/-- The shuffle whose outcome on the array `l` is `p` and which keeps every other array;
`h` says that `p` is a rearrangement of `l`. -/
def Shuffle.outcome (l p : List QuestionRecord) (h : p.Perm l) : Shuffle :=
  ⟨fun x => if x = l then p else x, fun x => by
    by_cases hx : x = l
    · simp only [hx, if_true]
      exact h
    · simp only [hx, if_false]
      exact List.Perm.refl x⟩

/-- A record with the given identifier, unit and subject; the other fields are
`undefined`. -/
def mkSubjectRecord (id : Nat) (unit : ℚ) (subject : String) : QuestionRecord :=
  { id := id, unit := .finite unit, question := .undefined, btLevel := .undefined,
    subjectCode := .undefined, subject := .string subject, branch := .undefined,
    regulation := .undefined, year := .undefined, semester := .undefined,
    month := .undefined }

/-- A bank whose records carry five different subjects. -/
def bankMixed : List QuestionRecord :=
  [mkSubjectRecord 1 1 "Algebra", mkSubjectRecord 2 1 "Botany", mkSubjectRecord 3 2 "Chemistry",
    mkSubjectRecord 4 2 "Drawing", mkSubjectRecord 5 3 "Ethics"]

/-- The mid1 selection from `bankMixed` when only the unit-1 draw reverses its array. -/
def sampleMixed : List QuestionRecord :=
  [mkSubjectRecord 2 1 "Botany", mkSubjectRecord 1 1 "Algebra",
    mkSubjectRecord 3 2 "Chemistry", mkSubjectRecord 4 2 "Drawing",
    mkSubjectRecord 5 3 "Ethics", mkSubjectRecord 1 1 "Algebra"]

/-- The paper details read from the record `mkSubjectRecord 2 1 "Botany"`. -/
def detailsMixed : PaperDetails :=
  { subject := .string "Botany", subjectCode := .undefined, branch := .undefined,
    regulation := .undefined, year := .undefined, semester := .undefined }

/-! ## The `/api/upload` handler -/

/-- What one upload request meets: whether `req.file` is present, the outcome of reading the
workbook and converting its first sheet (`XLSX.readFile` to `XLSX.utils.sheet_to_json`: the
rows, or the error thrown), and the outcome of `fs.unlinkSync` (done, or the error thrown). -/
structure UploadRequest where
  file : Bool
  parsed : Except Message (List Row)
  unlinked : Except Message Unit

/-- What the upload handler sends: an error object under `res.status(status)`, or the success
object with its `message` and `questionCount`. -/
inductive UploadResponse where
  | error (status : Nat) (error : Message)
  | success (message : String) (questionCount : Nat)
  deriving DecidableEq

/-- The handler of `POST /api/upload`: the first component is the module variable
`questionBank` after the request, the second is the response.  Every thrown error reaches
the `catch` block, which answers with status 500. -/
def upload (parseInt : JSValue → JSNumber) (questionBank : Option (List QuestionRecord))
    (req : UploadRequest) : Option (List QuestionRecord) × UploadResponse :=
  if !req.file then
    (questionBank, .error 400 (.text "No file uploaded"))
  else
    match req.parsed with
    | .error _ => (questionBank, .error 500 (.text "Error processing file"))
    | .ok jsonData =>
      let questionBank := processExcelData parseInt jsonData
      match req.unlinked with
      | .error _ => (some questionBank, .error 500 (.text "Error processing file"))
      | .ok _ =>
        (some questionBank, .success "File processed successfully" questionBank.length)

/-- An upload whose file is read into `sampleRows` and removed without error. -/
def uploadFine : UploadRequest :=
  { file := true, parsed := .ok sampleRows, unlinked := .ok () }

/-- An upload whose file is read into `sampleRows` but whose removal throws. -/
def uploadUnlinkFails : UploadRequest :=
  { file := true, parsed := .ok sampleRows,
    unlinked := .error (.engine "ENOENT: no such file or directory, unlink") }

/-! ## The random-comparator sort as a decision tree -/

/-- One deterministic sorting procedure run on one array with the comparator
`() => 0.5 - Math.random()`.  The comparator ignores its arguments, so what the procedure
does is decided by the signs it is handed: at `compare` it calls the comparator once and
goes on in the branch of the sign returned, at `done` it stops with the array rearranged to
`result`. -/
inductive SortRun where
  | done (result : List QuestionRecord)
  | compare (negative zero positive : SortRun)

/-- Every way the run can end leaves a rearrangement of the array `l`. -/
def SortRun.Rearranges (l : List QuestionRecord) : SortRun → Prop
  | .done result => result.Perm l
  | .compare negative zero positive =>
    negative.Rearranges l ∧ zero.Rearranges l ∧ positive.Rearranges l

/-- The probability that the run ends with an array satisfying `good`, when each call of the
comparator returns a negative number with probability `a`, zero with probability `b` and a
positive number with probability `c`, independently. -/
def SortRun.prob (a b c : ℚ) (good : List QuestionRecord → Bool) : SortRun → ℚ
  | .done result => if good result then 1 else 0
  | .compare negative zero positive =>
    a * negative.prob a b c good + b * zero.prob a b c good + c * positive.prob a b c good

/-- The probability that `getRandomQuestions(questions, count)` returns `out`, when `run` is
the run of the sort on the copy of `questions`: the sorted copy is cut to its first `count`
elements. -/
def getRandomQuestionsProb (a b c : ℚ) (run : SortRun) (count : Nat)
    (out : List QuestionRecord) : ℚ :=
  run.prob a b c fun shuffled => decide (shuffled.take count = out)

/-- A dyadic rational: an integer divided by a power of two.  The probability of every event
decided by finitely many fair coin flips, and of every event on a `Math.random()` value
drawn uniformly from the multiples of a negative power of two, is one. -/
def Dyadic (q : ℚ) : Prop := ∃ (n : ℤ) (k : ℕ), q * 2 ^ k = n

/-- Insertion sort of a three-element array `[x, y, z]` under the random comparator. -/
def insertionRun (x y z : QuestionRecord) : SortRun :=
  .compare
    (.compare (.compare (.done [z, y, x]) (.done [y, z, x]) (.done [y, z, x]))
      (.done [y, x, z]) (.done [y, x, z]))
    (.compare (.compare (.done [z, x, y]) (.done [x, z, y]) (.done [x, z, y]))
      (.done [x, y, z]) (.done [x, y, z]))
    (.compare (.compare (.done [z, x, y]) (.done [x, z, y]) (.done [x, z, y]))
      (.done [x, y, z]) (.done [x, y, z]))

/-! ## Arrays as mutable objects

The definitions above treat arrays as values.  Here every array is an object in memory, so
that `sort`, which rearranges the array it is called on, can be told apart from `filter`,
`slice` and the spread syntax, which build a new array. -/

/-- The arrays alive in memory; the reference of an array is its position. -/
structure Heap where
  arrays : List (List QuestionRecord)

/-- The elements of the array behind a reference. -/
def Heap.read (h : Heap) (ref : Nat) : List QuestionRecord := h.arrays.getD ref []

/-- A new array with the given elements: the memory after it, and its reference. -/
def Heap.alloc (h : Heap) (elements : List QuestionRecord) : Heap × Nat :=
  (⟨h.arrays ++ [elements]⟩, h.arrays.length)

/-- The call `array.sort(...)` with a random comparator: the array behind `ref` is
rearranged in place. -/
def Heap.sortInPlace (h : Heap) (ref : Nat) (s : Shuffle) : Heap :=
  ⟨h.arrays.set ref (s.apply (h.read ref))⟩

/-- Memory `h'` holds every array of `h` unchanged, and possibly more arrays after them. -/
def Heap.Extends (h h' : Heap) : Prop := ∃ extra, h'.arrays = h.arrays ++ extra

/-- `getRandomQuestions(questions, count)` on references: `[...questions]` is a new array,
`sort` rearranges that copy and returns it, `slice` builds the result. -/
def InPlace.getRandomQuestions (s : Shuffle) (h : Heap) (questions : Nat) (count : Nat) :
    Heap × Nat :=
  let copy := h.alloc (h.read questions)
  let sorted := copy.1.sortInPlace copy.2 s
  let shuffled := copy.2
  sorted.alloc ((sorted.read shuffled).take count)

/-- `generateMid1Questions()` on references; `questionBank` is the reference held by the
module variable. -/
def InPlace.generateMid1Questions (h : Heap) (questionBank : Nat) (s1 s2 s3 s4 : Shuffle) :
    Heap × Except Message Nat :=
  let unit1Questions :=
    h.alloc ((h.read questionBank).filter fun q => q.unit.strictEq (.finite 1))
  let unit2Questions := unit1Questions.1.alloc
    ((unit1Questions.1.read questionBank).filter fun q => q.unit.strictEq (.finite 2))
  let unit3Questions := unit2Questions.1.alloc
    ((unit2Questions.1.read questionBank).filter fun q => q.unit.strictEq (.finite 3))
  let h3 := unit3Questions.1
  if (h3.read unit1Questions.2).length < 2 || (h3.read unit2Questions.2).length < 2 ||
      (h3.read unit3Questions.2).length < 1 then
    (h3, .error (.text "Insufficient questions in Unit 1 ,Unit 2 or Unit 3"))
  else
    let d1 := InPlace.getRandomQuestions s1 h3 unit1Questions.2 2
    let d2 := InPlace.getRandomQuestions s2 d1.1 unit2Questions.2 2
    let d3 := InPlace.getRandomQuestions s3 d2.1 unit3Questions.2 1
    let pool := d3.1.alloc (d3.1.read unit1Questions.2 ++ d3.1.read unit2Questions.2)
    let d4 := InPlace.getRandomQuestions s4 pool.1 pool.2 1
    let result := d4.1.alloc
      (d4.1.read d1.2 ++ d4.1.read d2.2 ++ d4.1.read d3.2 ++ d4.1.read d4.2)
    (result.1, .ok result.2)

/-- `generateMid2Questions()` on references. -/
def InPlace.generateMid2Questions (h : Heap) (questionBank : Nat) (s1 s2 s3 s4 : Shuffle) :
    Heap × Except Message Nat :=
  let unit3Questions :=
    h.alloc ((h.read questionBank).filter fun q => q.unit.strictEq (.finite 3))
  let unit4Questions := unit3Questions.1.alloc
    ((unit3Questions.1.read questionBank).filter fun q => q.unit.strictEq (.finite 4))
  let unit5Questions := unit4Questions.1.alloc
    ((unit4Questions.1.read questionBank).filter fun q => q.unit.strictEq (.finite 5))
  let h3 := unit5Questions.1
  if (h3.read unit3Questions.2).length < 1 || (h3.read unit4Questions.2).length < 2 ||
      (h3.read unit5Questions.2).length < 2 then
    (h3, .error (.text "Insufficient questions in Units 3, 4, or 5"))
  else
    let d1 := InPlace.getRandomQuestions s1 h3 unit3Questions.2 1
    let d2 := InPlace.getRandomQuestions s2 d1.1 unit4Questions.2 2
    let d3 := InPlace.getRandomQuestions s3 d2.1 unit5Questions.2 2
    let pool := d3.1.alloc (d3.1.read unit4Questions.2 ++ d3.1.read unit5Questions.2)
    let d4 := InPlace.getRandomQuestions s4 pool.1 pool.2 1
    let result := d4.1.alloc
      (d4.1.read d1.2 ++ d4.1.read d2.2 ++ d4.1.read d3.2 ++ d4.1.read d4.2)
    (result.1, .ok result.2)

/-- `generateSpecialMidQuestions(mainUnit)` on references: the final `selected.sort(...)`
rearranges the array `selected` in place and returns it. -/
def InPlace.generateSpecialMidQuestions (h : Heap) (questionBank : Nat) (mainUnit : JSValue)
    (s1 s2 s3 : Shuffle) : Heap × Except Message Nat :=
  let mainUnitQuestions := h.alloc
    ((h.read questionBank).filter fun q => (JSValue.number q.unit).strictEq mainUnit)
  let otherUnitQuestions := mainUnitQuestions.1.alloc
    ((mainUnitQuestions.1.read questionBank).filter
      fun q => !(JSValue.number q.unit).strictEq mainUnit)
  let h2 := otherUnitQuestions.1
  if (h2.read mainUnitQuestions.2).length < 2 then
    (h2, .error (.template "Insufficient questions in Unit " mainUnit))
  else if (h2.read otherUnitQuestions.2).length < 4 then
    (h2, .error (.text "Insufficient questions in other units"))
  else
    let d1 := InPlace.getRandomQuestions s1 h2 mainUnitQuestions.2 2
    let d2 := InPlace.getRandomQuestions s2 d1.1 otherUnitQuestions.2 4
    let selected := d2.1.alloc (d2.1.read d1.2 ++ d2.1.read d2.2)
    (selected.1.sortInPlace selected.2 s3, .ok selected.2)

/-- The end of a selection in the handler: the response is built from the elements of the
selected array, a thrown error goes to the `catch` block. -/
def InPlace.finish (questionBank : Nat) (out : Heap × Except Message Nat) :
    Heap × Option Nat × Response :=
  match out.2 with
  | .ok selectedQuestions => (out.1, some questionBank, respond (out.1.read selectedQuestions))
  | .error e => (out.1, some questionBank, generateCatch e)

/-- The handler of `POST /api/generate` on references: the memory after the request, the
module variable `questionBank` after the request (`none` for `null`) and the response. -/
def InPlace.generate (h : Heap) (questionBank : Option Nat) (body : RequestBody)
    (s1 s2 s3 s4 : Shuffle) : Heap × Option Nat × Response :=
  match questionBank with
  | none =>
    (h, none, .error 400 (.text "No questions available. Please upload an Excel file first."))
  | some bank =>
    if body.paperType.strictEq (.string "mid1") then
      InPlace.finish bank (InPlace.generateMid1Questions h bank s1 s2 s3 s4)
    else if body.paperType.strictEq (.string "mid2") then
      InPlace.finish bank (InPlace.generateMid2Questions h bank s1 s2 s3 s4)
    else if body.paperType.strictEq (.string "special") then
      if !body.mainUnit.truthy then
        (h, some bank, .error 400 (.text "Main unit not specified for special mid"))
      else
        InPlace.finish bank
          (InPlace.generateSpecialMidQuestions h bank body.mainUnit s1 s2 s3)
    else
      (h, some bank, .error 400 (.text "Invalid paper type"))

/-- A memory that holds an unrelated array and then the bank `bankSpecial`, at
reference 1. -/
def heapSpecial : Heap := ⟨[bank221, bankSpecial]⟩

/-! ## Lemmas on the vocabulary -/

theorem strictEq_finite_iff (a : JSNumber) (u : ℚ) :
    a.strictEq (.finite u) = true ↔ a = .finite u := by
  cases a <;> simp [JSNumber.strictEq]

theorem ofUnit_unitNo_iff (u : ℚ) (q : QuestionRecord) :
    ofUnit (unitNo u) q ↔ q.unit = .finite u := by
  unfold ofUnit unitNo
  constructor
  · rintro ⟨_, h⟩
    exact JSValue.number.inj h
  · intro h
    rw [h]
    exact ⟨by simp, rfl⟩

theorem strictEq_number_iff (a : JSNumber) (m : JSValue) :
    (JSValue.number a).strictEq m = true ↔ a ≠ .nan ∧ JSValue.number a = m := by
  cases m with
  | number b => cases a <;> cases b <;> simp [JSValue.strictEq, JSNumber.strictEq]
  | _ => cases a <;> simp [JSValue.strictEq]

theorem unitPred_eq (u : ℚ) :
    (fun q : QuestionRecord => q.unit.strictEq (.finite u)) =
      fun q => decide (ofUnit (unitNo u) q) := by
  funext q
  rw [Bool.eq_iff_iff, strictEq_finite_iff, decide_eq_true_iff, ofUnit_unitNo_iff]

theorem mainPred_eq (m : JSValue) :
    (fun q : QuestionRecord => (JSValue.number q.unit).strictEq m) =
      fun q => decide (ofUnit m q) := by
  funext q
  rw [Bool.eq_iff_iff, strictEq_number_iff, decide_eq_true_iff]
  rfl

theorem otherPred_eq (m : JSValue) :
    (fun q : QuestionRecord => !(JSValue.number q.unit).strictEq m) =
      fun q => decide (¬ ofUnit m q) := by
  funext q
  have h := congrFun (mainPred_eq m) q
  simp only at h
  rw [h]
  simp

theorem filter_unit_length (bank : List QuestionRecord) (u : ℚ) :
    (bank.filter fun q => q.unit.strictEq (.finite u)).length = unitCount bank (unitNo u) := by
  rw [unitPred_eq, unitCount, List.countP_eq_length_filter]

theorem filter_main_length (bank : List QuestionRecord) (m : JSValue) :
    (bank.filter fun q => (JSValue.number q.unit).strictEq m).length = unitCount bank m := by
  rw [mainPred_eq, unitCount, List.countP_eq_length_filter]

theorem filter_other_length (bank : List QuestionRecord) (m : JSValue) :
    (bank.filter fun q => !(JSValue.number q.unit).strictEq m).length = otherCount bank m := by
  rw [otherPred_eq, otherCount, List.countP_eq_length_filter]

/-! ## Lemmas on `getRandomQuestions` -/

theorem getRandomQuestions_length (s : Shuffle) (l : List QuestionRecord) (n : Nat)
    (h : n ≤ l.length) : (getRandomQuestions s l n).length = n := by
  simp only [getRandomQuestions, List.length_take, (s.perm l).length_eq]
  omega

theorem getRandomQuestions_subset (s : Shuffle) (l : List QuestionRecord) (n : Nat)
    (x : QuestionRecord) (h : x ∈ getRandomQuestions s l n) : x ∈ l :=
  (s.perm l).mem_iff.mp (List.mem_of_mem_take h)

theorem getRandomQuestions_all (s : Shuffle) (l : List QuestionRecord) (n : Nat)
    (h : l.length ≤ n) : (getRandomQuestions s l n).Perm l := by
  unfold getRandomQuestions
  rw [List.take_of_length_le (by rw [(s.perm l).length_eq]; exact h)]
  exact s.perm l

theorem getRandomQuestions_one (s : Shuffle) (l : List QuestionRecord) (h : 1 ≤ l.length) :
    ∃ a, getRandomQuestions s l 1 = [a] ∧ a ∈ l := by
  have hl := getRandomQuestions_length s l 1 h
  obtain ⟨a, hr⟩ := List.length_eq_one.mp hl
  exact ⟨a, hr, getRandomQuestions_subset s l 1 a (by rw [hr]; simp)⟩

theorem getRandomQuestions_two (s : Shuffle) (l : List QuestionRecord) (h : 2 ≤ l.length) :
    ∃ a b, getRandomQuestions s l 2 = [a, b] ∧ a ∈ l ∧ b ∈ l := by
  have hl := getRandomQuestions_length s l 2 h
  obtain ⟨a, b, hr⟩ := List.length_eq_two.mp hl
  exact ⟨a, b, hr, getRandomQuestions_subset s l 2 a (by rw [hr]; simp),
    getRandomQuestions_subset s l 2 b (by rw [hr]; simp)⟩

theorem unitQuestions_length (bank : List QuestionRecord) (u : ℚ) :
    (unitQuestions bank u).length = unitCount bank (unitNo u) :=
  filter_unit_length bank u

theorem mem_unitQuestions (bank : List QuestionRecord) (u : ℚ) (q : QuestionRecord) :
    q ∈ unitQuestions bank u ↔ q ∈ bank ∧ q.unit = .finite u := by
  unfold unitQuestions
  rw [List.mem_filter, strictEq_finite_iff]

/-! ## Lemmas on identifiers -/

theorem ids_nodup_of_sublist {l bank : List QuestionRecord} (hid : (ids bank).Nodup)
    (h : l.Sublist bank) : (ids l).Nodup :=
  List.Nodup.sublist (h.map _) hid

theorem ids_nodup_unitQuestions {bank : List QuestionRecord} (hid : (ids bank).Nodup) (u : ℚ) :
    (ids (unitQuestions bank u)).Nodup :=
  ids_nodup_of_sublist hid (List.filter_sublist _)

theorem ids_nodup_append {l₁ l₂ bank : List QuestionRecord} (hid : (ids bank).Nodup)
    (h₁ : (ids l₁).Nodup) (h₂ : (ids l₂).Nodup) (hs₁ : ∀ x ∈ l₁, x ∈ bank)
    (hs₂ : ∀ x ∈ l₂, x ∈ bank) (hd : ∀ x ∈ l₁, x ∉ l₂) : (ids (l₁ ++ l₂)).Nodup := by
  unfold ids at *
  rw [List.map_append, List.nodup_append]
  refine ⟨h₁, h₂, ?_⟩
  intro i hi₁ hi₂
  obtain ⟨x, hx, hxi⟩ := List.mem_map.mp hi₁
  obtain ⟨y, hy, hyi⟩ := List.mem_map.mp hi₂
  have hxy : x = y :=
    List.inj_on_of_nodup_map hid (hs₁ x hx) (hs₂ y hy) (hxi.trans hyi.symm)
  exact hd x hx (hxy ▸ hy)

/-! ## Lemmas on the selection policies -/

theorem generateMid1Questions_ok (bank : List QuestionRecord) (s1 s2 s3 s4 : Shuffle)
    (h1 : 2 ≤ unitCount bank (unitNo 1)) (h2 : 2 ≤ unitCount bank (unitNo 2))
    (h3 : 1 ≤ unitCount bank (unitNo 3)) :
    generateMid1Questions bank s1 s2 s3 s4 =
      .ok (getRandomQuestions s1 (unitQuestions bank 1) 2 ++
        getRandomQuestions s2 (unitQuestions bank 2) 2 ++
        getRandomQuestions s3 (unitQuestions bank 3) 1 ++
        getRandomQuestions s4 (unitQuestions bank 1 ++ unitQuestions bank 2) 1) := by
  rw [← unitQuestions_length] at h1 h2 h3
  unfold generateMid1Questions
  simp only [unitQuestions] at *
  rw [if_neg]
  simp only [Bool.or_eq_true, decide_eq_true_eq]
  omega

theorem generateMid1Questions_error (bank : List QuestionRecord) (s1 s2 s3 s4 : Shuffle)
    (h : unitCount bank (unitNo 1) < 2 ∨ unitCount bank (unitNo 2) < 2 ∨
      unitCount bank (unitNo 3) < 1) :
    generateMid1Questions bank s1 s2 s3 s4 =
      .error (.text "Insufficient questions in Unit 1 ,Unit 2 or Unit 3") := by
  rw [← unitQuestions_length, ← unitQuestions_length, ← unitQuestions_length] at h
  unfold generateMid1Questions
  simp only [unitQuestions] at *
  rw [if_pos]
  simp only [Bool.or_eq_true, decide_eq_true_eq]
  omega

/-! ## C1 -/

/-- C1, the claim as stated fails: on the bank `bank221` (identifiers 1..5, two unit-1, two
unit-2 and one unit-3 record) with shuffles that keep the order, `generateMid1Questions`
returns the records with identifiers 1, 2, 3, 4, 5, 1: the sixth repeats the first. -/
theorem mid1_exact_bank_repeats :
    (ids bank221).Nodup ∧ unitCount bank221 (unitNo 1) = 2 ∧
      unitCount bank221 (unitNo 2) = 2 ∧ unitCount bank221 (unitNo 3) = 1 ∧
      ∃ r, generateMid1Questions bank221 .identity .identity .identity .identity = .ok r ∧
        ids r = [1, 2, 3, 4, 5, 1] ∧ ¬ (ids r).Nodup := by
  refine ⟨by decide, by decide, by decide, by decide, ?_⟩
  exact ⟨[mkRecord 1 1, mkRecord 2 1, mkRecord 3 2, mkRecord 4 2, mkRecord 5 3, mkRecord 1 1],
    by decide, by decide, by decide⟩

/-- C1, amended: for every bank with pairwise distinct identifiers that holds exactly 2
unit-1, 2 unit-2 and 1 unit-3 record, and for every outcome of the four shuffles,
`generateMid1Questions` succeeds and returns exactly 6 records; the first 5 have pairwise
distinct identifiers and the 6th is one of the first 4 again. -/
theorem mid1_exact_bank (bank : List QuestionRecord) (s1 s2 s3 s4 : Shuffle)
    (hid : (ids bank).Nodup) (h1 : unitCount bank (unitNo 1) = 2)
    (h2 : unitCount bank (unitNo 2) = 2) (h3 : unitCount bank (unitNo 3) = 1) :
    ∃ a b c d e f, generateMid1Questions bank s1 s2 s3 s4 = .ok [a, b, c, d, e, f] ∧
      (ids [a, b, c, d, e]).Nodup ∧ f ∈ [a, b, c, d] := by
  have hl1 := unitQuestions_length bank 1
  have hl2 := unitQuestions_length bank 2
  have hl3 := unitQuestions_length bank 3
  rw [h1] at hl1
  rw [h2] at hl2
  rw [h3] at hl3
  obtain ⟨a, b, hab, -, -⟩ := getRandomQuestions_two s1 (unitQuestions bank 1) (by omega)
  obtain ⟨c, d, hcd, -, -⟩ := getRandomQuestions_two s2 (unitQuestions bank 2) (by omega)
  obtain ⟨e, he, -⟩ := getRandomQuestions_one s3 (unitQuestions bank 3) (by omega)
  obtain ⟨f, hf, hfmem⟩ :=
    getRandomQuestions_one s4 (unitQuestions bank 1 ++ unitQuestions bank 2)
      (by rw [List.length_append]; omega)
  have pab : [a, b].Perm (unitQuestions bank 1) :=
    hab ▸ getRandomQuestions_all s1 _ 2 (by omega)
  have pcd : [c, d].Perm (unitQuestions bank 2) :=
    hcd ▸ getRandomQuestions_all s2 _ 2 (by omega)
  have pe : [e].Perm (unitQuestions bank 3) :=
    he ▸ getRandomQuestions_all s3 _ 1 (by omega)
  refine ⟨a, b, c, d, e, f, ?_, ?_, ?_⟩
  · rw [generateMid1Questions_ok bank s1 s2 s3 s4 (by omega) (by omega) (by omega),
      hab, hcd, he, hf]
    rfl
  · have hperm : [a, b, c, d, e].Perm
        ((unitQuestions bank 1 ++ unitQuestions bank 2) ++ unitQuestions bank 3) :=
      (pab.append pcd).append pe
    have hn12 : (ids (unitQuestions bank 1 ++ unitQuestions bank 2)).Nodup := by
      refine ids_nodup_append hid (ids_nodup_unitQuestions hid 1)
        (ids_nodup_unitQuestions hid 2) ?_ ?_ ?_
      · exact fun x hx => ((mem_unitQuestions bank 1 x).mp hx).1
      · exact fun x hx => ((mem_unitQuestions bank 2 x).mp hx).1
      · intro x hx hx2
        have e1 := ((mem_unitQuestions bank 1 x).mp hx).2
        have e2 := ((mem_unitQuestions bank 2 x).mp hx2).2
        rw [e1] at e2
        exact absurd (JSNumber.finite.inj e2) (by norm_num)
    have hn : (ids ((unitQuestions bank 1 ++ unitQuestions bank 2)
        ++ unitQuestions bank 3)).Nodup := by
      refine ids_nodup_append hid hn12 (ids_nodup_unitQuestions hid 3) ?_ ?_ ?_
      · intro x hx
        rcases List.mem_append.mp hx with h | h
        · exact ((mem_unitQuestions bank 1 x).mp h).1
        · exact ((mem_unitQuestions bank 2 x).mp h).1
      · exact fun x hx => ((mem_unitQuestions bank 3 x).mp hx).1
      · intro x hx hx3
        have e3 := ((mem_unitQuestions bank 3 x).mp hx3).2
        rcases List.mem_append.mp hx with h | h
        · have e1 := ((mem_unitQuestions bank 1 x).mp h).2
          rw [e1] at e3
          exact absurd (JSNumber.finite.inj e3) (by norm_num)
        · have e2 := ((mem_unitQuestions bank 2 x).mp h).2
          rw [e2] at e3
          exact absurd (JSNumber.finite.inj e3) (by norm_num)
    exact ((hperm.map _).nodup_iff).mpr hn
  · have : f ∈ [a, b] ++ [c, d] := by
      rcases List.mem_append.mp hfmem with h | h
      · exact List.mem_append_left _ (pab.mem_iff.mpr h)
      · exact List.mem_append_right _ (pcd.mem_iff.mpr h)
    simpa using this

/-- C1, amended, at a concrete input: the bank `bank221`, the first shuffle reversing and
the others keeping the order. -/
theorem mid1_exact_bank_witness :
    (ids bank221).Nodup ∧ unitCount bank221 (unitNo 1) = 2 ∧
      unitCount bank221 (unitNo 2) = 2 ∧ unitCount bank221 (unitNo 3) = 1 ∧
      ∃ a b c d e f,
        generateMid1Questions bank221 .reversal .identity .identity .identity =
          .ok [a, b, c, d, e, f] ∧
        (ids [a, b, c, d, e]).Nodup ∧ f ∈ [a, b, c, d] :=
  ⟨by decide, by decide, by decide, by decide,
    mid1_exact_bank bank221 .reversal .identity .identity .identity
      (by decide) (by decide) (by decide) (by decide)⟩

theorem generateMid2Questions_ok (bank : List QuestionRecord) (s1 s2 s3 s4 : Shuffle)
    (h3 : 1 ≤ unitCount bank (unitNo 3)) (h4 : 2 ≤ unitCount bank (unitNo 4))
    (h5 : 2 ≤ unitCount bank (unitNo 5)) :
    generateMid2Questions bank s1 s2 s3 s4 =
      .ok (getRandomQuestions s1 (unitQuestions bank 3) 1 ++
        getRandomQuestions s2 (unitQuestions bank 4) 2 ++
        getRandomQuestions s3 (unitQuestions bank 5) 2 ++
        getRandomQuestions s4 (unitQuestions bank 4 ++ unitQuestions bank 5) 1) := by
  rw [← unitQuestions_length] at h3 h4 h5
  unfold generateMid2Questions
  simp only [unitQuestions] at *
  rw [if_neg]
  simp only [Bool.or_eq_true, decide_eq_true_eq]
  omega

theorem generateMid2Questions_error (bank : List QuestionRecord) (s1 s2 s3 s4 : Shuffle)
    (h : unitCount bank (unitNo 3) < 1 ∨ unitCount bank (unitNo 4) < 2 ∨
      unitCount bank (unitNo 5) < 2) :
    generateMid2Questions bank s1 s2 s3 s4 =
      .error (.text "Insufficient questions in Units 3, 4, or 5") := by
  rw [← unitQuestions_length, ← unitQuestions_length, ← unitQuestions_length] at h
  unfold generateMid2Questions
  simp only [unitQuestions] at *
  rw [if_pos]
  simp only [Bool.or_eq_true, decide_eq_true_eq]
  omega

theorem mainUnitQuestions_length (bank : List QuestionRecord) (m : JSValue) :
    (mainUnitQuestions bank m).length = unitCount bank m :=
  filter_main_length bank m

theorem otherUnitQuestions_length (bank : List QuestionRecord) (m : JSValue) :
    (otherUnitQuestions bank m).length = otherCount bank m :=
  filter_other_length bank m

theorem mem_mainUnitQuestions (bank : List QuestionRecord) (m : JSValue) (q : QuestionRecord) :
    q ∈ mainUnitQuestions bank m ↔ q ∈ bank ∧ ofUnit m q := by
  unfold mainUnitQuestions
  rw [List.mem_filter, strictEq_number_iff]
  rfl

theorem mem_otherUnitQuestions (bank : List QuestionRecord) (m : JSValue) (q : QuestionRecord) :
    q ∈ otherUnitQuestions bank m ↔ q ∈ bank ∧ ¬ ofUnit m q := by
  unfold otherUnitQuestions
  rw [otherPred_eq, List.mem_filter, decide_eq_true_iff]

theorem generateSpecialMidQuestions_ok (bank : List QuestionRecord) (m : JSValue)
    (s1 s2 s3 : Shuffle) (hm : 2 ≤ unitCount bank m) (ho : 4 ≤ otherCount bank m) :
    generateSpecialMidQuestions bank m s1 s2 s3 =
      .ok (s3.apply (getRandomQuestions s1 (mainUnitQuestions bank m) 2 ++
        getRandomQuestions s2 (otherUnitQuestions bank m) 4)) := by
  rw [← mainUnitQuestions_length] at hm
  rw [← otherUnitQuestions_length] at ho
  unfold generateSpecialMidQuestions
  simp only [mainUnitQuestions, otherUnitQuestions] at *
  rw [if_neg (by omega), if_neg (by omega)]

theorem generateSpecialMidQuestions_error_main (bank : List QuestionRecord) (m : JSValue)
    (s1 s2 s3 : Shuffle) (hm : unitCount bank m < 2) :
    generateSpecialMidQuestions bank m s1 s2 s3 =
      .error (.template "Insufficient questions in Unit " m) := by
  rw [← mainUnitQuestions_length] at hm
  unfold generateSpecialMidQuestions
  simp only [mainUnitQuestions] at *
  rw [if_pos hm]

theorem generateSpecialMidQuestions_error_other (bank : List QuestionRecord) (m : JSValue)
    (s1 s2 s3 : Shuffle) (hm : 2 ≤ unitCount bank m) (ho : otherCount bank m < 4) :
    generateSpecialMidQuestions bank m s1 s2 s3 =
      .error (.text "Insufficient questions in other units") := by
  rw [← mainUnitQuestions_length] at hm
  rw [← otherUnitQuestions_length] at ho
  unfold generateSpecialMidQuestions
  simp only [mainUnitQuestions, otherUnitQuestions] at *
  rw [if_neg (by omega), if_pos ho]

/-! ## Lemmas on the handler -/

theorem generate_mid1 (bank : List QuestionRecord) (mainUnit : JSValue)
    (s1 s2 s3 s4 : Shuffle) :
    generate (some bank) ⟨.string "mid1", mainUnit⟩ s1 s2 s3 s4 =
      match generateMid1Questions bank s1 s2 s3 s4 with
      | .ok selectedQuestions => respond selectedQuestions
      | .error e => generateCatch e := by
  simp [generate, JSValue.strictEq]

theorem generate_mid2 (bank : List QuestionRecord) (mainUnit : JSValue)
    (s1 s2 s3 s4 : Shuffle) :
    generate (some bank) ⟨.string "mid2", mainUnit⟩ s1 s2 s3 s4 =
      match generateMid2Questions bank s1 s2 s3 s4 with
      | .ok selectedQuestions => respond selectedQuestions
      | .error e => generateCatch e := by
  simp [generate, JSValue.strictEq]

theorem generate_special (bank : List QuestionRecord) (mainUnit : JSValue)
    (s1 s2 s3 s4 : Shuffle) (h : mainUnit.truthy = true) :
    generate (some bank) ⟨.string "special", mainUnit⟩ s1 s2 s3 s4 =
      match generateSpecialMidQuestions bank mainUnit s1 s2 s3 with
      | .ok selectedQuestions => respond selectedQuestions
      | .error e => generateCatch e := by
  simp [generate, JSValue.strictEq, h]

/-! ## C2 -/

/-- C2, the claim as stated fails: on the loaded empty bank the request `mid1` meets a quota
shortfall, and the response has status 500, not 400. -/
theorem generate_shortfall_not_client_error :
    unitCount [] (unitNo 1) < 2 ∧
      generate (some []) (bodyOf "mid1") .identity .identity .identity .identity =
        .error 500 (.concat "Error generating questions: "
          (.text "Insufficient questions in Unit 1 ,Unit 2 or Unit 3")) ∧
      (generate (some []) (bodyOf "mid1") .identity .identity .identity .identity).status
        ≠ 400 := by
  refine ⟨by decide, by decide, by decide⟩

/-- C2, amended: for every loaded bank and every recognised request (`mid1`, `mid2`, or
`special` with a truthy main unit) whose quota the bank does not meet, the generate operation
answers with the server-error response, status 500, whose message is the shortfall message
of the policy after the text `Error generating questions: `. -/
theorem generate_shortfall_server_error (bank : List QuestionRecord) (mainUnit : JSValue)
    (s1 s2 s3 s4 : Shuffle) :
    ((unitCount bank (unitNo 1) < 2 ∨ unitCount bank (unitNo 2) < 2 ∨
        unitCount bank (unitNo 3) < 1) →
      generate (some bank) ⟨.string "mid1", mainUnit⟩ s1 s2 s3 s4 =
        .error 500 (.concat "Error generating questions: "
          (.text "Insufficient questions in Unit 1 ,Unit 2 or Unit 3"))) ∧
    ((unitCount bank (unitNo 3) < 1 ∨ unitCount bank (unitNo 4) < 2 ∨
        unitCount bank (unitNo 5) < 2) →
      generate (some bank) ⟨.string "mid2", mainUnit⟩ s1 s2 s3 s4 =
        .error 500 (.concat "Error generating questions: "
          (.text "Insufficient questions in Units 3, 4, or 5"))) ∧
    (mainUnit.truthy = true → unitCount bank mainUnit < 2 →
      generate (some bank) ⟨.string "special", mainUnit⟩ s1 s2 s3 s4 =
        .error 500 (.concat "Error generating questions: "
          (.template "Insufficient questions in Unit " mainUnit))) ∧
    (mainUnit.truthy = true → 2 ≤ unitCount bank mainUnit → otherCount bank mainUnit < 4 →
      generate (some bank) ⟨.string "special", mainUnit⟩ s1 s2 s3 s4 =
        .error 500 (.concat "Error generating questions: "
          (.text "Insufficient questions in other units"))) := by
  refine ⟨fun h => ?_, fun h => ?_, fun ht h => ?_, fun ht hm ho => ?_⟩
  · rw [generate_mid1, generateMid1Questions_error bank s1 s2 s3 s4 h]
    rfl
  · rw [generate_mid2, generateMid2Questions_error bank s1 s2 s3 s4 h]
    rfl
  · rw [generate_special bank mainUnit s1 s2 s3 s4 ht,
      generateSpecialMidQuestions_error_main bank mainUnit s1 s2 s3 h]
    rfl
  · rw [generate_special bank mainUnit s1 s2 s3 s4 ht,
      generateSpecialMidQuestions_error_other bank mainUnit s1 s2 s3 hm ho]
    rfl

/-- C2, amended, at concrete inputs: the bank `bank221` lacks unit-4 records for `mid2`, has
no unit-9 record for `special` with main unit 9, and has too few other records for
`special` with main unit 1; the empty bank fails `mid1`. -/
theorem generate_shortfall_server_error_witness :
    generate (some []) ⟨.string "mid1", unitNo 9⟩ .identity .identity .identity .identity =
        .error 500 (.concat "Error generating questions: "
          (.text "Insufficient questions in Unit 1 ,Unit 2 or Unit 3")) ∧
    generate (some bank221) ⟨.string "mid2", unitNo 9⟩ .identity .identity .identity .identity =
        .error 500 (.concat "Error generating questions: "
          (.text "Insufficient questions in Units 3, 4, or 5")) ∧
    generate (some bank221) ⟨.string "special", unitNo 9⟩ .identity .identity .identity
        .identity =
        .error 500 (.concat "Error generating questions: "
          (.template "Insufficient questions in Unit " (unitNo 9))) ∧
    generate (some bank221) ⟨.string "special", unitNo 1⟩ .identity .identity .identity
        .identity =
        .error 500 (.concat "Error generating questions: "
          (.text "Insufficient questions in other units")) :=
  ⟨(generate_shortfall_server_error [] (unitNo 9) .identity .identity .identity
      .identity).1 (by decide),
    (generate_shortfall_server_error bank221 (unitNo 9) .identity .identity .identity
      .identity).2.1 (by decide),
    (generate_shortfall_server_error bank221 (unitNo 9) .identity .identity .identity
      .identity).2.2.1 (by decide) (by decide),
    (generate_shortfall_server_error bank221 (unitNo 1) .identity .identity .identity
      .identity).2.2.2 (by decide) (by decide) (by decide)⟩

/-! ## C3 -/

/-- C3: for every main unit `m`, every bank with at least 2 records of unit `m` and at least
4 other records (records not of unit `m`, which covers every bank with 4 records of other
units), and every outcome of the two draw shuffles and of the final reordering,
`generateSpecialMidQuestions(m)` succeeds and returns exactly 6 records of which exactly 2
are records of unit `m`. -/
theorem special_six_with_two_main (bank : List QuestionRecord) (m : JSValue)
    (s1 s2 s3 : Shuffle) (hm : 2 ≤ unitCount bank m) (ho : 4 ≤ otherCount bank m) :
    ∃ r, generateSpecialMidQuestions bank m s1 s2 s3 = .ok r ∧ r.length = 6 ∧
      unitCount r m = 2 := by
  refine ⟨_, generateSpecialMidQuestions_ok bank m s1 s2 s3 hm ho, ?_, ?_⟩
  · rw [(s3.perm _).length_eq, List.length_append,
      getRandomQuestions_length s1 _ 2 (by rw [mainUnitQuestions_length]; exact hm),
      getRandomQuestions_length s2 _ 4 (by rw [otherUnitQuestions_length]; exact ho)]
  · unfold unitCount
    rw [(s3.perm _).countP_eq, List.countP_append]
    have hA : (getRandomQuestions s1 (mainUnitQuestions bank m) 2).countP
        (fun q => decide (ofUnit m q)) = 2 := by
      have hlen := getRandomQuestions_length s1 (mainUnitQuestions bank m) 2
        (by rw [mainUnitQuestions_length]; exact hm)
      refine Eq.trans (List.countP_eq_length.mpr ?_) hlen
      intro q hq
      exact decide_eq_true
        ((mem_mainUnitQuestions bank m q).mp (getRandomQuestions_subset s1 _ 2 q hq)).2
    have hB : (getRandomQuestions s2 (otherUnitQuestions bank m) 4).countP
        (fun q => decide (ofUnit m q)) = 0 := by
      rw [List.countP_eq_zero]
      intro q hq
      have hn :=
        ((mem_otherUnitQuestions bank m q).mp (getRandomQuestions_subset s2 _ 4 q hq)).2
      simpa using hn
    rw [hA, hB]

/-- C3 at a concrete input: main unit 3 on the bank `bankSpecial`, with a reversing second
draw and a reversing final reordering. -/
theorem special_six_with_two_main_witness :
    2 ≤ unitCount bankSpecial (unitNo 3) ∧ 4 ≤ otherCount bankSpecial (unitNo 3) ∧
      ∃ r, generateSpecialMidQuestions bankSpecial (unitNo 3) .identity .reversal .reversal
          = .ok r ∧ r.length = 6 ∧ unitCount r (unitNo 3) = 2 :=
  ⟨by decide, by decide,
    special_six_with_two_main bankSpecial (unitNo 3) .identity .reversal .reversal
      (by decide) (by decide)⟩

/-! ## C4 -/

/-- C4: selection fails exactly on a quota shortfall, for every bank and every shuffle
outcome.  `generateMid1Questions` throws if and only if the bank has fewer than 2 unit-1
records, fewer than 2 unit-2 records or no unit-3 record; `generateMid2Questions` throws if
and only if it has no unit-3 record, fewer than 2 unit-4 records or fewer than 2 unit-5
records; `generateSpecialMidQuestions(m)` throws if and only if it has fewer than 2 records
of unit `m` or fewer than 4 other records (a record whose unit is `NaN` counts among the
others, as in the code).  What is thrown is the insufficient-questions message of the
policy, and a bank with exactly 1 unit-1 record makes mid1 fail with a message whose text
contains `Unit 1`. -/
theorem selection_fails_iff_shortfall :
    (∀ (bank : List QuestionRecord) (s1 s2 s3 s4 : Shuffle),
      ((∃ e, generateMid1Questions bank s1 s2 s3 s4 = .error e) ↔
        (unitCount bank (unitNo 1) < 2 ∨ unitCount bank (unitNo 2) < 2 ∨
          unitCount bank (unitNo 3) < 1)) ∧
      ∀ e, generateMid1Questions bank s1 s2 s3 s4 = .error e →
        e = .text "Insufficient questions in Unit 1 ,Unit 2 or Unit 3") ∧
    (∀ (bank : List QuestionRecord) (s1 s2 s3 s4 : Shuffle),
      ((∃ e, generateMid2Questions bank s1 s2 s3 s4 = .error e) ↔
        (unitCount bank (unitNo 3) < 1 ∨ unitCount bank (unitNo 4) < 2 ∨
          unitCount bank (unitNo 5) < 2)) ∧
      ∀ e, generateMid2Questions bank s1 s2 s3 s4 = .error e →
        e = .text "Insufficient questions in Units 3, 4, or 5") ∧
    (∀ (bank : List QuestionRecord) (m : JSValue) (s1 s2 s3 : Shuffle),
      ((∃ e, generateSpecialMidQuestions bank m s1 s2 s3 = .error e) ↔
        (unitCount bank m < 2 ∨ otherCount bank m < 4)) ∧
      ∀ e, generateSpecialMidQuestions bank m s1 s2 s3 = .error e →
        e = .template "Insufficient questions in Unit " m ∨
          e = .text "Insufficient questions in other units") ∧
    (∀ (bank : List QuestionRecord) (s1 s2 s3 s4 : Shuffle),
      unitCount bank (unitNo 1) = 1 →
        generateMid1Questions bank s1 s2 s3 s4 =
          .error (.text "Insufficient questions in Unit 1 ,Unit 2 or Unit 3")) ∧
    List.IsInfix "Unit 1".toList "Insufficient questions in Unit 1 ,Unit 2 or Unit 3".toList := by
  refine ⟨fun bank s1 s2 s3 s4 => ?_, fun bank s1 s2 s3 s4 => ?_,
    fun bank m s1 s2 s3 => ?_, fun bank s1 s2 s3 s4 h => ?_, by decide⟩
  · by_cases h : unitCount bank (unitNo 1) < 2 ∨ unitCount bank (unitNo 2) < 2 ∨
        unitCount bank (unitNo 3) < 1
    · have he := generateMid1Questions_error bank s1 s2 s3 s4 h
      refine ⟨⟨fun _ => h, fun _ => ⟨_, he⟩⟩, fun e hx => ?_⟩
      rw [he] at hx
      exact (Except.error.inj hx).symm
    · have hok := generateMid1Questions_ok bank s1 s2 s3 s4 (by omega) (by omega) (by omega)
      refine ⟨⟨fun ⟨e, hx⟩ => ?_, fun h' => absurd h' h⟩, fun e hx => ?_⟩
      · rw [hok] at hx
        cases hx
      · rw [hok] at hx
        cases hx
  · by_cases h : unitCount bank (unitNo 3) < 1 ∨ unitCount bank (unitNo 4) < 2 ∨
        unitCount bank (unitNo 5) < 2
    · have he := generateMid2Questions_error bank s1 s2 s3 s4 h
      refine ⟨⟨fun _ => h, fun _ => ⟨_, he⟩⟩, fun e hx => ?_⟩
      rw [he] at hx
      exact (Except.error.inj hx).symm
    · have hok := generateMid2Questions_ok bank s1 s2 s3 s4 (by omega) (by omega) (by omega)
      refine ⟨⟨fun ⟨e, hx⟩ => ?_, fun h' => absurd h' h⟩, fun e hx => ?_⟩
      · rw [hok] at hx
        cases hx
      · rw [hok] at hx
        cases hx
  · by_cases hm : unitCount bank m < 2
    · have he := generateSpecialMidQuestions_error_main bank m s1 s2 s3 hm
      refine ⟨⟨fun _ => Or.inl hm, fun _ => ⟨_, he⟩⟩, fun e hx => ?_⟩
      rw [he] at hx
      exact Or.inl (Except.error.inj hx).symm
    · by_cases ho : otherCount bank m < 4
      · have he := generateSpecialMidQuestions_error_other bank m s1 s2 s3 (by omega) ho
        refine ⟨⟨fun _ => Or.inr ho, fun _ => ⟨_, he⟩⟩, fun e hx => ?_⟩
        rw [he] at hx
        exact Or.inr (Except.error.inj hx).symm
      · have hok := generateSpecialMidQuestions_ok bank m s1 s2 s3 (by omega) (by omega)
        refine ⟨⟨fun ⟨e, hx⟩ => ?_, fun h' => ?_⟩, fun e hx => ?_⟩
        · rw [hok] at hx
          cases hx
        · omega
        · rw [hok] at hx
          cases hx
  · exact generateMid1Questions_error bank s1 s2 s3 s4 (Or.inl (by omega))

/-- C4 at concrete inputs: a bank with one unit-1 record fails mid1 with the message naming
Unit 1, and the bank `bankSpecial` with main unit 3 does not fail. -/
theorem selection_fails_iff_shortfall_witness :
    generateMid1Questions [mkRecord 1 1, mkRecord 2 2, mkRecord 3 2, mkRecord 4 3]
        .identity .identity .identity .identity =
      .error (.text "Insufficient questions in Unit 1 ,Unit 2 or Unit 3") ∧
    ¬ ∃ e, generateSpecialMidQuestions bankSpecial (unitNo 3) .identity .identity .identity
      = .error e :=
  ⟨selection_fails_iff_shortfall.2.2.2.1 _ .identity .identity .identity .identity
      (by decide),
    fun h => absurd ((selection_fails_iff_shortfall.2.2.1 bankSpecial (unitNo 3) .identity
      .identity .identity).1.mp h) (by decide)⟩

/-! ## C5 -/

/-- C5: for every bank and every shuffle outcome, whenever `generateMid1Questions` succeeds
its result has length 6 with the mid1 composition in order: the 1st and 2nd records have
unit 1, the 3rd and 4th unit 2, the 5th unit 3 and the 6th unit 1 or 2; every returned
record is an element of the bank. -/
theorem mid1_composition (bank : List QuestionRecord) (s1 s2 s3 s4 : Shuffle)
    (r : List QuestionRecord) (h : generateMid1Questions bank s1 s2 s3 s4 = .ok r) :
    r.length = 6 ∧
      (∃ a b c d e f, r = [a, b, c, d, e, f] ∧
        a.unit = .finite 1 ∧ b.unit = .finite 1 ∧ c.unit = .finite 2 ∧ d.unit = .finite 2 ∧
        e.unit = .finite 3 ∧ (f.unit = .finite 1 ∨ f.unit = .finite 2)) ∧
      ∀ q ∈ r, q ∈ bank := by
  by_cases hs : unitCount bank (unitNo 1) < 2 ∨ unitCount bank (unitNo 2) < 2 ∨
      unitCount bank (unitNo 3) < 1
  · rw [generateMid1Questions_error bank s1 s2 s3 s4 hs] at h
    cases h
  · have h1 : 2 ≤ (unitQuestions bank 1).length := by rw [unitQuestions_length]; omega
    have h2 : 2 ≤ (unitQuestions bank 2).length := by rw [unitQuestions_length]; omega
    have h3 : 1 ≤ (unitQuestions bank 3).length := by rw [unitQuestions_length]; omega
    rw [generateMid1Questions_ok bank s1 s2 s3 s4 (by omega) (by omega) (by omega)] at h
    obtain ⟨a, b, hab, ha, hb⟩ := getRandomQuestions_two s1 (unitQuestions bank 1) h1
    obtain ⟨c, d, hcd, hc, hd⟩ := getRandomQuestions_two s2 (unitQuestions bank 2) h2
    obtain ⟨e, he, hem⟩ := getRandomQuestions_one s3 (unitQuestions bank 3) h3
    obtain ⟨f, hf, hfm⟩ :=
      getRandomQuestions_one s4 (unitQuestions bank 1 ++ unitQuestions bank 2)
        (by rw [List.length_append]; omega)
    rw [hab, hcd, he, hf] at h
    have hr : r = [a, b, c, d, e, f] := (Except.ok.inj h).symm
    rw [mem_unitQuestions] at ha hb hc hd hem
    have hfu : f ∈ bank ∧ (f.unit = .finite 1 ∨ f.unit = .finite 2) := by
      rcases List.mem_append.mp hfm with hx | hx
      · rw [mem_unitQuestions] at hx
        exact ⟨hx.1, Or.inl hx.2⟩
      · rw [mem_unitQuestions] at hx
        exact ⟨hx.1, Or.inr hx.2⟩
    subst hr
    refine ⟨rfl, ⟨a, b, c, d, e, f, rfl, ha.2, hb.2, hc.2, hd.2, hem.2, hfu.2⟩, ?_⟩
    intro q hq
    simp only [List.mem_cons, List.mem_singleton, List.not_mem_nil, or_false] at hq
    rcases hq with rfl | rfl | rfl | rfl | rfl | rfl
    exacts [ha.1, hb.1, hc.1, hd.1, hem.1, hfu.1]

/-- C5 at a concrete input: the bank `bank221` with a reversing pooled draw returns the
records 1, 2, 3, 4, 5 and then record 4. -/
theorem mid1_composition_witness :
    generateMid1Questions bank221 .identity .identity .identity .reversal = .ok sampleMid1 ∧
      sampleMid1.length = 6 ∧
      (∃ a b c d e f, sampleMid1 = [a, b, c, d, e, f] ∧
        a.unit = .finite 1 ∧ b.unit = .finite 1 ∧ c.unit = .finite 2 ∧ d.unit = .finite 2 ∧
        e.unit = .finite 3 ∧ (f.unit = .finite 1 ∨ f.unit = .finite 2)) ∧
      ∀ q ∈ sampleMid1, q ∈ bank221 :=
  ⟨by decide,
    mid1_composition bank221 .identity .identity .identity .reversal sampleMid1 (by decide)⟩

/-! ## C6 -/

/-- C6: for every bank and every shuffle outcome, whenever `generateMid2Questions` succeeds
its result has length 6 with the mid2 composition in order: the 1st record has unit 3, the
2nd and 3rd unit 4, the 4th and 5th unit 5 and the 6th unit 4 or 5; every returned record is
an element of the bank. -/
theorem mid2_composition (bank : List QuestionRecord) (s1 s2 s3 s4 : Shuffle)
    (r : List QuestionRecord) (h : generateMid2Questions bank s1 s2 s3 s4 = .ok r) :
    r.length = 6 ∧
      (∃ a b c d e f, r = [a, b, c, d, e, f] ∧
        a.unit = .finite 3 ∧ b.unit = .finite 4 ∧ c.unit = .finite 4 ∧ d.unit = .finite 5 ∧
        e.unit = .finite 5 ∧ (f.unit = .finite 4 ∨ f.unit = .finite 5)) ∧
      ∀ q ∈ r, q ∈ bank := by
  by_cases hs : unitCount bank (unitNo 3) < 1 ∨ unitCount bank (unitNo 4) < 2 ∨
      unitCount bank (unitNo 5) < 2
  · rw [generateMid2Questions_error bank s1 s2 s3 s4 hs] at h
    cases h
  · have h3 : 1 ≤ (unitQuestions bank 3).length := by rw [unitQuestions_length]; omega
    have h4 : 2 ≤ (unitQuestions bank 4).length := by rw [unitQuestions_length]; omega
    have h5 : 2 ≤ (unitQuestions bank 5).length := by rw [unitQuestions_length]; omega
    rw [generateMid2Questions_ok bank s1 s2 s3 s4 (by omega) (by omega) (by omega)] at h
    obtain ⟨a, ha', ha⟩ := getRandomQuestions_one s1 (unitQuestions bank 3) h3
    obtain ⟨b, c, hbc, hb, hc⟩ := getRandomQuestions_two s2 (unitQuestions bank 4) h4
    obtain ⟨d, e, hde, hd, he⟩ := getRandomQuestions_two s3 (unitQuestions bank 5) h5
    obtain ⟨f, hf, hfm⟩ :=
      getRandomQuestions_one s4 (unitQuestions bank 4 ++ unitQuestions bank 5)
        (by rw [List.length_append]; omega)
    rw [ha', hbc, hde, hf] at h
    have hr : r = [a, b, c, d, e, f] := (Except.ok.inj h).symm
    rw [mem_unitQuestions] at ha hb hc hd he
    have hfu : f ∈ bank ∧ (f.unit = .finite 4 ∨ f.unit = .finite 5) := by
      rcases List.mem_append.mp hfm with hx | hx
      · rw [mem_unitQuestions] at hx
        exact ⟨hx.1, Or.inl hx.2⟩
      · rw [mem_unitQuestions] at hx
        exact ⟨hx.1, Or.inr hx.2⟩
    subst hr
    refine ⟨rfl, ⟨a, b, c, d, e, f, rfl, ha.2, hb.2, hc.2, hd.2, he.2, hfu.2⟩, ?_⟩
    intro q hq
    simp only [List.mem_cons, List.mem_singleton, List.not_mem_nil, or_false] at hq
    rcases hq with rfl | rfl | rfl | rfl | rfl | rfl
    exacts [ha.1, hb.1, hc.1, hd.1, he.1, hfu.1]

/-- C6 at a concrete input: the bank `bank122` with a reversing unit-4 draw returns the
records 1, 3, 2, 4, 5 and then record 2. -/
theorem mid2_composition_witness :
    generateMid2Questions bank122 .identity .reversal .identity .identity = .ok sampleMid2 ∧
      sampleMid2.length = 6 ∧
      (∃ a b c d e f, sampleMid2 = [a, b, c, d, e, f] ∧
        a.unit = .finite 3 ∧ b.unit = .finite 4 ∧ c.unit = .finite 4 ∧ d.unit = .finite 5 ∧
        e.unit = .finite 5 ∧ (f.unit = .finite 4 ∨ f.unit = .finite 5)) ∧
      ∀ q ∈ sampleMid2, q ∈ bank122 :=
  ⟨by decide,
    mid2_composition bank122 .identity .reversal .identity .identity sampleMid2 (by decide)⟩

/-! ## C7 -/

/-- C7: while the bank is absent, the generate operation answers every request body, whatever
its paper type and main unit and whatever the shuffles would be, with the client error
`No questions available. Please upload an Excel file first.` (status 400); the response
depends on no shuffle, so no selection takes part in it. -/
theorem generate_bank_absent (body : RequestBody) (s1 s2 s3 s4 : Shuffle) :
    generate none body s1 s2 s3 s4 =
      .error 400 (.text "No questions available. Please upload an Excel file first.") :=
  rfl

/-! ## C8 -/

theorem strictEq_string_iff (v : JSValue) (s : String) :
    v.strictEq (.string s) = true ↔ v = .string s := by
  cases v <;> simp [JSValue.strictEq]

theorem caught_text_ne_invalid (toStr : JSValue → String) (e : Message) :
    (generateCatch e).errorText toStr ≠ some "Invalid paper type" := by
  intro h
  simp only [generateCatch, Response.errorText, Message.render, Option.some.injEq] at h
  have h2 := congrArg (fun s => s.data.head?) h
  simp [String.data_append] at h2

/-- C8: for every loaded bank and every paper-type value other than the strings `mid1`,
`mid2` and `special` (a missing tag is `undefined`), the generate operation answers with the
client error `Invalid paper type` (status 400) whatever the bank and the shuffles, so no
selection takes part in it; that response differs from the bank-absent response, from the
missing-main-unit response, and its text differs from the text of every response of the
catch block, the one that carries a shortfall. -/
theorem generate_unknown_paper_type (bank : List QuestionRecord) (body : RequestBody)
    (s1 s2 s3 s4 : Shuffle) (h1 : body.paperType ≠ .string "mid1")
    (h2 : body.paperType ≠ .string "mid2") (h3 : body.paperType ≠ .string "special") :
    generate (some bank) body s1 s2 s3 s4 = .error 400 (.text "Invalid paper type") ∧
      generate (some bank) body s1 s2 s3 s4 ≠ generate none body s1 s2 s3 s4 ∧
      generate (some bank) body s1 s2 s3 s4 ≠
        generate (some bank) ⟨.string "special", .undefined⟩ s1 s2 s3 s4 ∧
      ∀ (toStr : JSValue → String) (e : Message),
        (generate (some bank) body s1 s2 s3 s4).errorText toStr ≠
          (generateCatch e).errorText toStr := by
  have hg : generate (some bank) body s1 s2 s3 s4 = .error 400 (.text "Invalid paper type") := by
    have e1 : body.paperType.strictEq (.string "mid1") = false := by
      rw [← Bool.not_eq_true, strictEq_string_iff]; exact h1
    have e2 : body.paperType.strictEq (.string "mid2") = false := by
      rw [← Bool.not_eq_true, strictEq_string_iff]; exact h2
    have e3 : body.paperType.strictEq (.string "special") = false := by
      rw [← Bool.not_eq_true, strictEq_string_iff]; exact h3
    simp [generate, e1, e2, e3]
  refine ⟨hg, ?_, ?_, ?_⟩
  · rw [hg]
    simp [generate]
  · rw [hg]
    simp [generate, JSValue.strictEq, JSValue.truthy]
  · intro toStr e
    rw [hg]
    exact fun h => caught_text_ne_invalid toStr e h.symm

/-- C8 at concrete inputs: the paper type `final`, and a missing paper type, on the bank
`bank221`. -/
theorem generate_unknown_paper_type_witness :
    generate (some bank221) (bodyOf "final") .identity .identity .identity .identity =
        .error 400 (.text "Invalid paper type") ∧
      generate (some bank221) ⟨.undefined, .undefined⟩ .identity .identity .identity
        .identity = .error 400 (.text "Invalid paper type") :=
  ⟨(generate_unknown_paper_type bank221 (bodyOf "final") .identity .identity .identity
      .identity (by decide) (by decide) (by decide)).1,
    (generate_unknown_paper_type bank221 ⟨.undefined, .undefined⟩ .identity .identity
      .identity .identity (by decide) (by decide) (by decide)).1⟩

/-! ## C9 -/

/-- C9: for every loaded bank, a generate request with paper type `special` and no main unit
(`undefined`, or any other falsy value) is answered with the client error
`Main unit not specified for special mid` (status 400); the response is the same for every
other bank and every other shuffle outcome, so it depends neither on the bank contents nor on
a selection. -/
theorem generate_special_without_main_unit (bank bank' : List QuestionRecord)
    (body : RequestBody) (s1 s2 s3 s4 t1 t2 t3 t4 : Shuffle)
    (hp : body.paperType = .string "special") (hm : body.mainUnit.truthy = false) :
    generate (some bank) body s1 s2 s3 s4 =
        .error 400 (.text "Main unit not specified for special mid") ∧
      generate (some bank) body s1 s2 s3 s4 = generate (some bank') body t1 t2 t3 t4 := by
  have key : ∀ (b : List QuestionRecord) (u1 u2 u3 u4 : Shuffle),
      generate (some b) body u1 u2 u3 u4 =
        .error 400 (.text "Main unit not specified for special mid") := by
    intro b u1 u2 u3 u4
    simp [generate, hp, hm, JSValue.strictEq]
  exact ⟨key bank s1 s2 s3 s4, (key bank s1 s2 s3 s4).trans (key bank' t1 t2 t3 t4).symm⟩

/-- C9 at a concrete input: the bank `bankSpecial`, which meets the special quota for unit 3,
and the empty bank, which does not, with no main unit in the body. -/
theorem generate_special_without_main_unit_witness :
    generate (some bankSpecial) (bodyOf "special") .identity .identity .identity .identity =
        .error 400 (.text "Main unit not specified for special mid") ∧
      generate (some bankSpecial) (bodyOf "special") .identity .identity .identity .identity =
        generate (some []) (bodyOf "special") .reversal .reversal .reversal .reversal :=
  generate_special_without_main_unit bankSpecial [] (bodyOf "special") .identity .identity
    .identity .identity .reversal .reversal .reversal .reversal rfl rfl

/-! ## C10 -/

/-- C10: for every list of input rows, `processExcelData` returns exactly one record per row,
in row order: the record at 0-based position `i` is built from the row at position `i` and
its identifier is `i + 1`, so the identifiers are the contiguous sequence 1..count. -/
theorem processExcelData_sequential (parseInt : JSValue → JSNumber) (data : List Row) :
    (processExcelData parseInt data).length = data.length ∧
      (∀ i : Nat, (processExcelData parseInt data)[i]? =
        data[i]?.map (recordOfRow parseInt i)) ∧
      (∀ i : Nat, ((processExcelData parseInt data)[i]?).map (fun q => q.id) =
        data[i]?.map (fun _ => i + 1)) ∧
      ids (processExcelData parseInt data) = List.range' 1 data.length := by
  have hget : ∀ i : Nat, (processExcelData parseInt data)[i]? =
      data[i]?.map (recordOfRow parseInt i) := by
    intro i
    unfold processExcelData
    rw [List.getElem?_mapIdx]
    rfl
  refine ⟨by simp [processExcelData], hget, ?_, ?_⟩
  · intro i
    rw [hget i]
    cases data[i]? <;> rfl
  · apply List.ext_getElem?
    intro i
    unfold ids
    rw [List.getElem?_map, hget i]
    by_cases hi : i < data.length
    · rw [List.getElem?_eq_getElem hi, List.getElem?_range' _ _ hi]
      simp [recordOfRow, Nat.add_comm]
    · rw [List.getElem?_eq_none (by omega), List.getElem?_eq_none (by simp; omega)]
      rfl

/-- C10 at a concrete input: three rows, none of which carries the number 1, 2 or 3, get the
identifiers 1, 2, 3. -/
theorem processExcelData_sequential_witness :
    ids (processExcelData parseIntStub sampleRows) = [1, 2, 3] :=
  (processExcelData_sequential parseIntStub sampleRows).2.2.2

/-! ## C11 -/

/-- C11, the claim as stated fails: in the bank `bankNaN` the record 3 has unit `NaN`, yet
for main unit 3 it is counted among the 4 other records that the special quota needs, and
`generateSpecialMidQuestions(3)` with order-keeping shuffles succeeds and returns it. -/
theorem nan_record_in_special :
    (nanRecord 3).unit = .nan ∧ nanRecord 3 ∈ bankNaN ∧
      otherCount bankNaN (unitNo 3) = 4 ∧
      nanRecord 3 ∈ otherUnitQuestions bankNaN (unitNo 3) ∧
      ∃ r, generateSpecialMidQuestions bankNaN (unitNo 3) .identity .identity .identity
          = .ok r ∧ nanRecord 3 ∈ r := by
  refine ⟨rfl, by decide, by decide, by decide, ?_⟩
  exact ⟨[mkRecord 1 3, mkRecord 2 3, nanRecord 3, mkRecord 4 1, mkRecord 5 2, mkRecord 6 4],
    by decide, by decide⟩

/-- C11, amended: a record whose unit is `NaN` is invisible to mid1 and mid2 and to the
main-unit partition of special.  For every bank, every such record, every unit number, every
main unit and every shuffle outcome, the record is in no unit partition (so in no pooled
partition either), in no main-unit partition, and in no result of `generateMid1Questions`
or `generateMid2Questions`; when it is in the bank it is in the other-units partition of
`generateSpecialMidQuestions` for every main unit. -/
theorem nan_record_visibility (bank : List QuestionRecord) (q : QuestionRecord)
    (hq : q.unit = .nan) :
    (∀ u : ℚ, q ∉ unitQuestions bank u) ∧
      (∀ m : JSValue, q ∉ mainUnitQuestions bank m) ∧
      (∀ (s1 s2 s3 s4 : Shuffle) (r : List QuestionRecord),
        generateMid1Questions bank s1 s2 s3 s4 = .ok r → q ∉ r) ∧
      (∀ (s1 s2 s3 s4 : Shuffle) (r : List QuestionRecord),
        generateMid2Questions bank s1 s2 s3 s4 = .ok r → q ∉ r) ∧
      (∀ m : JSValue, q ∈ bank → q ∈ otherUnitQuestions bank m) := by
  have hu : ∀ u : ℚ, q ∉ unitQuestions bank u := by
    intro u hmem
    have h := ((mem_unitQuestions bank u q).mp hmem).2
    rw [hq] at h
    cases h
  have hpool : ∀ (s : Shuffle) (u v : ℚ) (n : Nat),
      q ∉ getRandomQuestions s (unitQuestions bank u ++ unitQuestions bank v) n := by
    intro s u v n hmem
    rcases List.mem_append.mp (getRandomQuestions_subset s _ n q hmem) with h | h
    · exact hu u h
    · exact hu v h
  have hdraw : ∀ (s : Shuffle) (u : ℚ) (n : Nat),
      q ∉ getRandomQuestions s (unitQuestions bank u) n :=
    fun s u n hmem => hu u (getRandomQuestions_subset s _ n q hmem)
  refine ⟨hu, ?_, ?_, ?_, ?_⟩
  · intro m hmem
    exact ((mem_mainUnitQuestions bank m q).mp hmem).2.1 hq
  · intro s1 s2 s3 s4 r h hmem
    by_cases hs : unitCount bank (unitNo 1) < 2 ∨ unitCount bank (unitNo 2) < 2 ∨
        unitCount bank (unitNo 3) < 1
    · rw [generateMid1Questions_error bank s1 s2 s3 s4 hs] at h
      cases h
    · rw [generateMid1Questions_ok bank s1 s2 s3 s4 (by omega) (by omega) (by omega)] at h
      rw [← Except.ok.inj h] at hmem
      simp only [List.mem_append] at hmem
      rcases hmem with ((h1 | h2) | h3) | h4
      · exact hdraw _ _ _ h1
      · exact hdraw _ _ _ h2
      · exact hdraw _ _ _ h3
      · exact hpool _ _ _ _ h4
  · intro s1 s2 s3 s4 r h hmem
    by_cases hs : unitCount bank (unitNo 3) < 1 ∨ unitCount bank (unitNo 4) < 2 ∨
        unitCount bank (unitNo 5) < 2
    · rw [generateMid2Questions_error bank s1 s2 s3 s4 hs] at h
      cases h
    · rw [generateMid2Questions_ok bank s1 s2 s3 s4 (by omega) (by omega) (by omega)] at h
      rw [← Except.ok.inj h] at hmem
      simp only [List.mem_append] at hmem
      rcases hmem with ((h1 | h2) | h3) | h4
      · exact hdraw _ _ _ h1
      · exact hdraw _ _ _ h2
      · exact hdraw _ _ _ h3
      · exact hpool _ _ _ _ h4
  · intro m hb
    exact (mem_otherUnitQuestions bank m q).mpr ⟨hb, fun h => h.1 hq⟩

/-- C11, amended, at a concrete input: the `NaN` record 3 of the bank `bankNaN`. -/
theorem nan_record_visibility_witness :
    (nanRecord 3).unit = .nan ∧
      (∀ u : ℚ, nanRecord 3 ∉ unitQuestions bankNaN u) ∧
      (∀ m : JSValue, nanRecord 3 ∉ mainUnitQuestions bankNaN m) ∧
      (∀ (s1 s2 s3 s4 : Shuffle) (r : List QuestionRecord),
        generateMid1Questions bankNaN s1 s2 s3 s4 = .ok r → nanRecord 3 ∉ r) ∧
      (∀ (s1 s2 s3 s4 : Shuffle) (r : List QuestionRecord),
        generateMid2Questions bankNaN s1 s2 s3 s4 = .ok r → nanRecord 3 ∉ r) ∧
      (∀ m : JSValue, nanRecord 3 ∈ bankNaN → nanRecord 3 ∈ otherUnitQuestions bankNaN m) :=
  ⟨rfl, nan_record_visibility bankNaN (nanRecord 3) rfl⟩

/-! ## C12 -/

theorem ids_nodup_draw {l : List QuestionRecord} (h : (ids l).Nodup) (s : Shuffle) (n : Nat) :
    (ids (getRandomQuestions s l n)).Nodup := by
  have hp : (ids (s.apply l)).Nodup := (((s.perm l).map _).nodup_iff).mpr h
  exact List.Nodup.sublist ((List.take_sublist n (s.apply l)).map _) hp

theorem ids_nodup_three_draws {bank : List QuestionRecord} (hid : (ids bank).Nodup)
    (u v w : ℚ) (huv : u ≠ v) (huw : u ≠ w) (hvw : v ≠ w) (s1 s2 s3 : Shuffle)
    (n1 n2 n3 : Nat) :
    (ids (getRandomQuestions s1 (unitQuestions bank u) n1 ++
      getRandomQuestions s2 (unitQuestions bank v) n2 ++
      getRandomQuestions s3 (unitQuestions bank w) n3)).Nodup := by
  have mem : ∀ (s : Shuffle) (x : ℚ) (n : Nat) (q : QuestionRecord),
      q ∈ getRandomQuestions s (unitQuestions bank x) n → q ∈ bank ∧ q.unit = .finite x :=
    fun s x n q hq => (mem_unitQuestions bank x q).mp (getRandomQuestions_subset s _ n q hq)
  have hab : (ids (getRandomQuestions s1 (unitQuestions bank u) n1 ++
      getRandomQuestions s2 (unitQuestions bank v) n2)).Nodup := by
    refine ids_nodup_append hid (ids_nodup_draw (ids_nodup_unitQuestions hid u) s1 n1)
      (ids_nodup_draw (ids_nodup_unitQuestions hid v) s2 n2) ?_ ?_ ?_
    · exact fun q hq => (mem s1 u n1 q hq).1
    · exact fun q hq => (mem s2 v n2 q hq).1
    · intro q hq hq'
      have e1 := (mem s1 u n1 q hq).2
      have e2 := (mem s2 v n2 q hq').2
      rw [e1] at e2
      exact huv (JSNumber.finite.inj e2)
  refine ids_nodup_append hid hab
    (ids_nodup_draw (ids_nodup_unitQuestions hid w) s3 n3) ?_ ?_ ?_
  · intro q hq
    rcases List.mem_append.mp hq with h | h
    · exact (mem s1 u n1 q h).1
    · exact (mem s2 v n2 q h).1
  · exact fun q hq => (mem s3 w n3 q hq).1
  · intro q hq hq'
    have e3 := (mem s3 w n3 q hq').2
    rcases List.mem_append.mp hq with h | h
    · have e1 := (mem s1 u n1 q h).2
      rw [e1] at e3
      exact huw (JSNumber.finite.inj e3)
    · have e2 := (mem s2 v n2 q h).2
      rw [e2] at e3
      exact hvw (JSNumber.finite.inj e3)

/-- C12: the dedicated per-unit draws never overlap.  For every bank whose records have
pairwise distinct identifiers and every shuffle outcome, the records returned by a successful
`generateSpecialMidQuestions` have pairwise distinct identifiers (so they are pairwise
distinct), and so have the first 5 records returned by a successful `generateMid1Questions`
or `generateMid2Questions`; a repeat can only involve the 6th, pooled, record. -/
theorem dedicated_draws_distinct (bank : List QuestionRecord) (hid : (ids bank).Nodup) :
    (∀ (m : JSValue) (s1 s2 s3 : Shuffle) (r : List QuestionRecord),
      generateSpecialMidQuestions bank m s1 s2 s3 = .ok r → (ids r).Nodup ∧ r.Nodup) ∧
    (∀ (s1 s2 s3 s4 : Shuffle) (r : List QuestionRecord),
      generateMid1Questions bank s1 s2 s3 s4 = .ok r →
        (ids (r.take 5)).Nodup ∧ (r.take 5).Nodup) ∧
    (∀ (s1 s2 s3 s4 : Shuffle) (r : List QuestionRecord),
      generateMid2Questions bank s1 s2 s3 s4 = .ok r →
        (ids (r.take 5)).Nodup ∧ (r.take 5).Nodup) := by
  have both : ∀ l : List QuestionRecord, (ids l).Nodup → (ids l).Nodup ∧ l.Nodup :=
    fun l h => ⟨h, List.Nodup.of_map _ h⟩
  refine ⟨?_, ?_, ?_⟩
  · intro m s1 s2 s3 r h
    by_cases hm : unitCount bank m < 2
    · rw [generateSpecialMidQuestions_error_main bank m s1 s2 s3 hm] at h
      cases h
    by_cases ho : otherCount bank m < 4
    · rw [generateSpecialMidQuestions_error_other bank m s1 s2 s3 (by omega) ho] at h
      cases h
    rw [generateSpecialMidQuestions_ok bank m s1 s2 s3 (by omega) (by omega)] at h
    rw [← Except.ok.inj h]
    apply both
    refine (((s3.perm _).map _).nodup_iff).mpr ?_
    refine ids_nodup_append hid
      (ids_nodup_draw (ids_nodup_of_sublist hid (List.filter_sublist _)) s1 2)
      (ids_nodup_draw (ids_nodup_of_sublist hid (List.filter_sublist _)) s2 4) ?_ ?_ ?_
    · exact fun q hq =>
        ((mem_mainUnitQuestions bank m q).mp (getRandomQuestions_subset s1 _ 2 q hq)).1
    · exact fun q hq =>
        ((mem_otherUnitQuestions bank m q).mp (getRandomQuestions_subset s2 _ 4 q hq)).1
    · intro q hq hq'
      exact ((mem_otherUnitQuestions bank m q).mp (getRandomQuestions_subset s2 _ 4 q hq')).2
        ((mem_mainUnitQuestions bank m q).mp (getRandomQuestions_subset s1 _ 2 q hq)).2
  · intro s1 s2 s3 s4 r h
    by_cases hs : unitCount bank (unitNo 1) < 2 ∨ unitCount bank (unitNo 2) < 2 ∨
        unitCount bank (unitNo 3) < 1
    · rw [generateMid1Questions_error bank s1 s2 s3 s4 hs] at h
      cases h
    rw [generateMid1Questions_ok bank s1 s2 s3 s4 (by omega) (by omega) (by omega)] at h
    rw [← Except.ok.inj h]
    have hlen : (getRandomQuestions s1 (unitQuestions bank 1) 2 ++
        getRandomQuestions s2 (unitQuestions bank 2) 2 ++
        getRandomQuestions s3 (unitQuestions bank 3) 1).length = 5 := by
      rw [List.length_append, List.length_append,
        getRandomQuestions_length s1 _ 2 (by rw [unitQuestions_length]; omega),
        getRandomQuestions_length s2 _ 2 (by rw [unitQuestions_length]; omega),
        getRandomQuestions_length s3 _ 1 (by rw [unitQuestions_length]; omega)]
    rw [List.take_left' hlen]
    exact both _ (ids_nodup_three_draws hid 1 2 3 (by norm_num) (by norm_num) (by norm_num)
      s1 s2 s3 2 2 1)
  · intro s1 s2 s3 s4 r h
    by_cases hs : unitCount bank (unitNo 3) < 1 ∨ unitCount bank (unitNo 4) < 2 ∨
        unitCount bank (unitNo 5) < 2
    · rw [generateMid2Questions_error bank s1 s2 s3 s4 hs] at h
      cases h
    rw [generateMid2Questions_ok bank s1 s2 s3 s4 (by omega) (by omega) (by omega)] at h
    rw [← Except.ok.inj h]
    have hlen : (getRandomQuestions s1 (unitQuestions bank 3) 1 ++
        getRandomQuestions s2 (unitQuestions bank 4) 2 ++
        getRandomQuestions s3 (unitQuestions bank 5) 2).length = 5 := by
      rw [List.length_append, List.length_append,
        getRandomQuestions_length s1 _ 1 (by rw [unitQuestions_length]; omega),
        getRandomQuestions_length s2 _ 2 (by rw [unitQuestions_length]; omega),
        getRandomQuestions_length s3 _ 2 (by rw [unitQuestions_length]; omega)]
    rw [List.take_left' hlen]
    exact both _ (ids_nodup_three_draws hid 3 4 5 (by norm_num) (by norm_num) (by norm_num)
      s1 s2 s3 1 2 2)

/-- C12 at concrete inputs: the banks `bankSpecial` (main unit 3), `bank221` and `bank122`,
each with pairwise distinct identifiers, under reversing shuffles. -/
theorem dedicated_draws_distinct_witness :
    ((ids bankSpecial).Nodup ∧ ∀ r : List QuestionRecord,
      generateSpecialMidQuestions bankSpecial (unitNo 3) .reversal .reversal .reversal = .ok r →
        (ids r).Nodup ∧ r.Nodup) ∧
    ((ids bank221).Nodup ∧ ∀ r : List QuestionRecord,
      generateMid1Questions bank221 .reversal .reversal .reversal .reversal = .ok r →
        (ids (r.take 5)).Nodup ∧ (r.take 5).Nodup) ∧
    ((ids bank122).Nodup ∧ ∀ r : List QuestionRecord,
      generateMid2Questions bank122 .reversal .reversal .reversal .reversal = .ok r →
        (ids (r.take 5)).Nodup ∧ (r.take 5).Nodup) :=
  ⟨⟨by decide, (dedicated_draws_distinct bankSpecial (by decide)).1 (unitNo 3) .reversal
      .reversal .reversal⟩,
    ⟨by decide, (dedicated_draws_distinct bank221 (by decide)).2.1 .reversal .reversal
      .reversal .reversal⟩,
    ⟨by decide, (dedicated_draws_distinct bank122 (by decide)).2.2 .reversal .reversal
      .reversal .reversal⟩⟩

/-! ## C13 -/

/-- C13: for every list of records, every count `N` not larger than its length and every
outcome of the shuffle, `getRandomQuestions` returns exactly `N` records, the length-`N`
front of a rearrangement of the input; so the result is a sub-multiset of the input, no
record occurs in it more often than in the input, and when the input has no duplicates no
record occurs twice.  Every rearrangement of the input is the outcome of some shuffle. -/
theorem getRandomQuestions_without_replacement (s : Shuffle) (l : List QuestionRecord)
    (N : Nat) (h : N ≤ l.length) :
    (getRandomQuestions s l N).length = N ∧
      (∃ p : List QuestionRecord, p.Perm l ∧ getRandomQuestions s l N = p.take N) ∧
      (getRandomQuestions s l N).Subperm l ∧
      (∀ q : QuestionRecord, (getRandomQuestions s l N).count q ≤ l.count q) ∧
      (l.Nodup → (getRandomQuestions s l N).Nodup) ∧
      (∀ p : List QuestionRecord, p.Perm l →
        ∃ t : Shuffle, getRandomQuestions t l N = p.take N) := by
  have hsub : (getRandomQuestions s l N).Subperm l :=
    (List.take_sublist N (s.apply l)).subperm.trans (s.perm l).subperm
  refine ⟨getRandomQuestions_length s l N h, ⟨s.apply l, s.perm l, rfl⟩, hsub,
    fun q => hsub.count_le q, fun hn => ?_, fun p hp => ?_⟩
  · exact List.Nodup.sublist (List.take_sublist N (s.apply l))
      (((s.perm l).nodup_iff).mpr hn)
  · refine ⟨Shuffle.outcome l p hp, ?_⟩
    simp [getRandomQuestions, Shuffle.outcome]

/-- C13 at a concrete input: 2 records from the 5 of `bank221` under the reversing
shuffle. -/
theorem getRandomQuestions_without_replacement_witness :
    2 ≤ bank221.length ∧ getRandomQuestions .reversal bank221 2 = [mkRecord 5 3, mkRecord 4 2] ∧
      (getRandomQuestions .reversal bank221 2).length = 2 :=
  ⟨by decide, by decide,
    (getRandomQuestions_without_replacement .reversal bank221 2 (by decide)).1⟩

/-! ## C14 -/

/-- C14: the pooled draw does not exclude the records of the dedicated draws.  On the bank
`bank331` (pairwise distinct identifiers, three unit-1, three unit-2, one unit-3 record)
with order-keeping shuffles, `generateMid1Questions` succeeds and its 6th record is its 1st
record again; on the bank `bank133` with order-keeping shuffles, `generateMid2Questions`
succeeds and its 6th record is its 2nd record again. -/
theorem pooled_draw_can_repeat :
    (∃ (bank : List QuestionRecord) (s1 s2 s3 s4 : Shuffle) (a b c d e f : QuestionRecord),
      (ids bank).Nodup ∧ generateMid1Questions bank s1 s2 s3 s4 = .ok [a, b, c, d, e, f] ∧
        f ∈ [a, b, c, d]) ∧
    (∃ (bank : List QuestionRecord) (s1 s2 s3 s4 : Shuffle) (a b c d e f : QuestionRecord),
      (ids bank).Nodup ∧ generateMid2Questions bank s1 s2 s3 s4 = .ok [a, b, c, d, e, f] ∧
        f ∈ [b, c, d, e]) := by
  constructor
  · exact ⟨bank331, .identity, .identity, .identity, .identity,
      mkRecord 1 1, mkRecord 2 1, mkRecord 4 2, mkRecord 5 2, mkRecord 7 3, mkRecord 1 1,
      by decide, by decide, by decide⟩
  · exact ⟨bank133, .identity, .identity, .identity, .identity,
      mkRecord 1 3, mkRecord 2 4, mkRecord 3 4, mkRecord 5 5, mkRecord 6 5, mkRecord 2 4,
      by decide, by decide, by decide⟩

/-! ## C15 -/

theorem generateMid1Questions_length (bank : List QuestionRecord) (s1 s2 s3 s4 : Shuffle)
    (r : List QuestionRecord) (h : generateMid1Questions bank s1 s2 s3 s4 = .ok r) :
    r.length = 6 := by
  by_cases hs : unitCount bank (unitNo 1) < 2 ∨ unitCount bank (unitNo 2) < 2 ∨
      unitCount bank (unitNo 3) < 1
  · rw [generateMid1Questions_error bank s1 s2 s3 s4 hs] at h
    cases h
  rw [generateMid1Questions_ok bank s1 s2 s3 s4 (by omega) (by omega) (by omega)] at h
  rw [← Except.ok.inj h, List.length_append, List.length_append, List.length_append,
    getRandomQuestions_length s1 _ 2 (by rw [unitQuestions_length]; omega),
    getRandomQuestions_length s2 _ 2 (by rw [unitQuestions_length]; omega),
    getRandomQuestions_length s3 _ 1 (by rw [unitQuestions_length]; omega),
    getRandomQuestions_length s4 _ 1
      (by rw [List.length_append, unitQuestions_length, unitQuestions_length]; omega)]

theorem generateMid2Questions_length (bank : List QuestionRecord) (s1 s2 s3 s4 : Shuffle)
    (r : List QuestionRecord) (h : generateMid2Questions bank s1 s2 s3 s4 = .ok r) :
    r.length = 6 := by
  by_cases hs : unitCount bank (unitNo 3) < 1 ∨ unitCount bank (unitNo 4) < 2 ∨
      unitCount bank (unitNo 5) < 2
  · rw [generateMid2Questions_error bank s1 s2 s3 s4 hs] at h
    cases h
  rw [generateMid2Questions_ok bank s1 s2 s3 s4 (by omega) (by omega) (by omega)] at h
  rw [← Except.ok.inj h, List.length_append, List.length_append, List.length_append,
    getRandomQuestions_length s1 _ 1 (by rw [unitQuestions_length]; omega),
    getRandomQuestions_length s2 _ 2 (by rw [unitQuestions_length]; omega),
    getRandomQuestions_length s3 _ 2 (by rw [unitQuestions_length]; omega),
    getRandomQuestions_length s4 _ 1
      (by rw [List.length_append, unitQuestions_length, unitQuestions_length]; omega)]

theorem generateSpecialMidQuestions_length (bank : List QuestionRecord) (m : JSValue)
    (s1 s2 s3 : Shuffle) (r : List QuestionRecord)
    (h : generateSpecialMidQuestions bank m s1 s2 s3 = .ok r) : r.length = 6 := by
  by_cases hm : unitCount bank m < 2
  · rw [generateSpecialMidQuestions_error_main bank m s1 s2 s3 hm] at h
    cases h
  by_cases ho : otherCount bank m < 4
  · rw [generateSpecialMidQuestions_error_other bank m s1 s2 s3 (by omega) ho] at h
    cases h
  rw [generateSpecialMidQuestions_ok bank m s1 s2 s3 (by omega) (by omega)] at h
  rw [← Except.ok.inj h, (s3.perm _).length_eq, List.length_append,
    getRandomQuestions_length s1 _ 2 (by rw [mainUnitQuestions_length]; omega),
    getRandomQuestions_length s2 _ 4 (by rw [otherUnitQuestions_length]; omega)]

theorem respond_success (r qs : List QuestionRecord) (pd : PaperDetails)
    (h : respond r = .success qs pd) :
    ∃ q0 rest, qs = q0 :: rest ∧ pd.subject = q0.subject ∧
      pd.subjectCode = q0.subjectCode ∧ pd.branch = q0.branch ∧
      pd.regulation = q0.regulation ∧ pd.year = q0.year ∧ pd.semester = q0.semester := by
  cases r with
  | nil => simp [respond, generateCatch] at h
  | cons q0 rest =>
    simp only [respond, Response.success.injEq] at h
    obtain ⟨h1, h2⟩ := h
    subst h1
    subst h2
    exact ⟨q0, rest, rfl, rfl, rfl, rfl, rfl, rfl, rfl⟩

theorem respond_of_length (r : List QuestionRecord) (h : r.length = 6) (e : Message) :
    respond r ≠ generateCatch e := by
  cases r with
  | nil => simp at h
  | cons q0 rest => simp [respond, generateCatch]

/-- The selection a request runs, when it runs one: the outcome of the selector that the
`switch` of the handler calls. -/
theorem generate_cases (qb : Option (List QuestionRecord)) (body : RequestBody)
    (s1 s2 s3 s4 : Shuffle) :
    (∃ status text, generate qb body s1 s2 s3 s4 = .error status (.text text)) ∨
    (∃ e, generate qb body s1 s2 s3 s4 =
      generateCatch (.text e) ∨ generate qb body s1 s2 s3 s4 =
      generateCatch (.template e body.mainUnit)) ∨
    (∃ r, r.length = 6 ∧ generate qb body s1 s2 s3 s4 = respond r) := by
  cases qb with
  | none => exact Or.inl ⟨_, _, rfl⟩
  | some bank =>
    unfold generate
    simp only
    split_ifs with h1 h2 h3 h4
    · cases hr : generateMid1Questions bank s1 s2 s3 s4 with
      | ok r => exact Or.inr (Or.inr ⟨r, generateMid1Questions_length _ _ _ _ _ _ hr, rfl⟩)
      | error e =>
        by_cases hs : unitCount bank (unitNo 1) < 2 ∨ unitCount bank (unitNo 2) < 2 ∨
            unitCount bank (unitNo 3) < 1
        · rw [generateMid1Questions_error bank s1 s2 s3 s4 hs] at hr
          rw [← Except.error.inj hr]
          exact Or.inr (Or.inl ⟨_, Or.inl rfl⟩)
        · rw [generateMid1Questions_ok bank s1 s2 s3 s4 (by omega) (by omega) (by omega)] at hr
          cases hr
    · cases hr : generateMid2Questions bank s1 s2 s3 s4 with
      | ok r => exact Or.inr (Or.inr ⟨r, generateMid2Questions_length _ _ _ _ _ _ hr, rfl⟩)
      | error e =>
        by_cases hs : unitCount bank (unitNo 3) < 1 ∨ unitCount bank (unitNo 4) < 2 ∨
            unitCount bank (unitNo 5) < 2
        · rw [generateMid2Questions_error bank s1 s2 s3 s4 hs] at hr
          rw [← Except.error.inj hr]
          exact Or.inr (Or.inl ⟨_, Or.inl rfl⟩)
        · rw [generateMid2Questions_ok bank s1 s2 s3 s4 (by omega) (by omega) (by omega)] at hr
          cases hr
    · exact Or.inl ⟨_, _, rfl⟩
    · cases hr : generateSpecialMidQuestions bank body.mainUnit s1 s2 s3 with
      | ok r =>
        exact Or.inr (Or.inr ⟨r, generateSpecialMidQuestions_length _ _ _ _ _ _ hr, rfl⟩)
      | error e =>
        by_cases hm : unitCount bank body.mainUnit < 2
        · rw [generateSpecialMidQuestions_error_main bank _ s1 s2 s3 hm] at hr
          rw [← Except.error.inj hr]
          exact Or.inr (Or.inl ⟨_, Or.inr rfl⟩)
        by_cases ho : otherCount bank body.mainUnit < 4
        · rw [generateSpecialMidQuestions_error_other bank _ s1 s2 s3 (by omega) ho] at hr
          rw [← Except.error.inj hr]
          exact Or.inr (Or.inl ⟨_, Or.inl rfl⟩)
        · rw [generateSpecialMidQuestions_ok bank _ s1 s2 s3 (by omega) (by omega)] at hr
          cases hr
    · exact Or.inl ⟨_, _, rfl⟩

/-- C15: for every successful generate response, the paper details are read from the first
element of the returned questions: subject, subjectCode, branch, regulation, year and
semester equal the fields of `questions[0]`, whatever the bank holds.  That first element
always exists: every successful selection has 6 records, so the handler never fails on
reading `selectedQuestions[0]`. -/
theorem paper_details_from_first_question :
    (∀ (qb : Option (List QuestionRecord)) (body : RequestBody) (s1 s2 s3 s4 : Shuffle)
        (qs : List QuestionRecord) (pd : PaperDetails),
      generate qb body s1 s2 s3 s4 = .success qs pd →
        ∃ q0 rest, qs = q0 :: rest ∧ pd.subject = q0.subject ∧
          pd.subjectCode = q0.subjectCode ∧ pd.branch = q0.branch ∧
          pd.regulation = q0.regulation ∧ pd.year = q0.year ∧
          pd.semester = q0.semester) ∧
    (∀ (bank : List QuestionRecord) (s1 s2 s3 s4 : Shuffle) (r : List QuestionRecord),
      generateMid1Questions bank s1 s2 s3 s4 = .ok r → r ≠ []) ∧
    (∀ (bank : List QuestionRecord) (s1 s2 s3 s4 : Shuffle) (r : List QuestionRecord),
      generateMid2Questions bank s1 s2 s3 s4 = .ok r → r ≠ []) ∧
    (∀ (bank : List QuestionRecord) (m : JSValue) (s1 s2 s3 : Shuffle)
        (r : List QuestionRecord),
      generateSpecialMidQuestions bank m s1 s2 s3 = .ok r → r ≠ []) ∧
    (∀ (qb : Option (List QuestionRecord)) (body : RequestBody) (s1 s2 s3 s4 : Shuffle)
        (what : String),
      generate qb body s1 s2 s3 s4 ≠ generateCatch (.engine what)) := by
  have ne_nil : ∀ r : List QuestionRecord, r.length = 6 → r ≠ [] := by
    intro r h hr
    rw [hr] at h
    cases h
  refine ⟨?_, ?_, ?_, ?_, ?_⟩
  · intro qb body s1 s2 s3 s4 qs pd h
    rcases generate_cases qb body s1 s2 s3 s4 with ⟨st, t, hg⟩ | ⟨e, hg | hg⟩ | ⟨r, -, hg⟩
    · rw [hg] at h
      cases h
    · rw [hg] at h
      cases h
    · rw [hg] at h
      cases h
    · rw [hg] at h
      exact respond_success r qs pd h
  · exact fun bank s1 s2 s3 s4 r h => ne_nil r (generateMid1Questions_length _ _ _ _ _ _ h)
  · exact fun bank s1 s2 s3 s4 r h => ne_nil r (generateMid2Questions_length _ _ _ _ _ _ h)
  · exact fun bank m s1 s2 s3 r h =>
      ne_nil r (generateSpecialMidQuestions_length _ _ _ _ _ _ h)
  · intro qb body s1 s2 s3 s4 what h
    rcases generate_cases qb body s1 s2 s3 s4 with ⟨st, t, hg⟩ | ⟨e, hg | hg⟩ | ⟨r, hl, hg⟩
    · rw [hg] at h
      simp [generateCatch] at h
    · rw [hg] at h
      simp [generateCatch] at h
    · rw [hg] at h
      simp [generateCatch] at h
    · rw [hg] at h
      exact respond_of_length r hl _ h

/-- C15 at a concrete input: request `mid1` on the bank `bankMixed`, whose records carry
five subjects, with a reversing unit-1 draw: the details carry the subject of the first
returned record. -/
theorem paper_details_from_first_question_witness :
    generate (some bankMixed) (bodyOf "mid1") .reversal .identity .identity .identity =
        .success sampleMixed detailsMixed ∧
      ∃ q0 rest, sampleMixed = q0 :: rest ∧ detailsMixed.subject = q0.subject ∧
        detailsMixed.subjectCode = q0.subjectCode ∧ detailsMixed.branch = q0.branch ∧
        detailsMixed.regulation = q0.regulation ∧ detailsMixed.year = q0.year ∧
        detailsMixed.semester = q0.semester :=
  ⟨by decide,
    paper_details_from_first_question.1 (some bankMixed) (bodyOf "mid1") .reversal .identity
      .identity .identity sampleMixed detailsMixed (by decide)⟩

/-! ## C16 -/

/-- C16: a successful upload replaces the bank wholesale.  For every previous bank state and
every request, when the response is the success object, the file was parsed into some rows,
the bank after the request is `processExcelData(rows)`, the reported `questionCount` is the
number of rows, and the bank after the request is the same whatever the previous bank was;
every request with a file that parses into `rows` and is removed without error gets that
success response. -/
theorem upload_replaces_bank (parseInt : JSValue → JSNumber) :
    (∀ (prev : Option (List QuestionRecord)) (req : UploadRequest) (message : String)
        (n : Nat),
      (upload parseInt prev req).2 = .success message n →
        ∃ rows, req.parsed = .ok rows ∧
          (upload parseInt prev req).1 = some (processExcelData parseInt rows) ∧
          n = rows.length ∧
          ∀ prev', (upload parseInt prev' req).1 = some (processExcelData parseInt rows)) ∧
    (∀ (prev : Option (List QuestionRecord)) (rows : List Row),
      upload parseInt prev ⟨true, .ok rows, .ok ()⟩ =
        (some (processExcelData parseInt rows),
          .success "File processed successfully" rows.length)) := by
  constructor
  · intro prev req message n h
    obtain ⟨file, parsed, unlinked⟩ := req
    cases file with
    | false => simp [upload] at h
    | true =>
      cases parsed with
      | error e => simp [upload] at h
      | ok rows =>
        cases unlinked with
        | error e => simp [upload] at h
        | ok u =>
          simp only [upload, Bool.not_true, Bool.false_eq_true, if_false,
            UploadResponse.success.injEq] at h
          refine ⟨rows, rfl, rfl, ?_, fun prev' => rfl⟩
          rw [← h.2]
          simp [processExcelData]
  · intro prev rows
    simp [upload, processExcelData]

/-- C16 at a concrete input: uploading `sampleRows` over the loaded bank `bank221`. -/
theorem upload_replaces_bank_witness :
    (upload parseIntStub (some bank221) uploadFine).2 =
        .success "File processed successfully" 3 ∧
      ∃ rows, uploadFine.parsed = .ok rows ∧
        (upload parseIntStub (some bank221) uploadFine).1 =
          some (processExcelData parseIntStub rows) ∧
        3 = rows.length ∧
        ∀ prev', (upload parseIntStub prev' uploadFine).1 =
          some (processExcelData parseIntStub rows) :=
  ⟨by decide,
    (upload_replaces_bank parseIntStub).1 (some bank221) uploadFine
      "File processed successfully" 3 (by decide)⟩

/-! ## C18 -/

/-- C18, evaluated on the code: an upload over the loaded bank `bank221` whose file parses
into `sampleRows` but whose `fs.unlinkSync` throws is answered with the error response
`Error processing file` (status 500), and the bank after the request is
`processExcelData(sampleRows)`, not the bank before it.  On the other error responses, no
file and a parse failure, the bank is the one before the request. -/
theorem upload_error_changes_bank :
    (upload parseIntStub (some bank221) uploadUnlinkFails).2 =
        .error 500 (.text "Error processing file") ∧
      (upload parseIntStub (some bank221) uploadUnlinkFails).1 =
        some (processExcelData parseIntStub sampleRows) ∧
      (upload parseIntStub (some bank221) uploadUnlinkFails).1 ≠ some bank221 ∧
      (∀ (parseInt : JSValue → JSNumber) (prev : Option (List QuestionRecord))
          (req : UploadRequest),
        req.file = false ∨ (∃ e, req.parsed = .error e) →
          (upload parseInt prev req).1 = prev) := by
  refine ⟨by decide, by decide, by decide, ?_⟩
  intro parseInt prev req h
  obtain ⟨file, parsed, unlinked⟩ := req
  rcases h with h | ⟨e, h⟩
  · simp only at h
    subst h
    simp [upload]
  · simp only at h
    subst h
    cases file <;> simp [upload]

/-! ## C17 -/

theorem dyadic_add {p q : ℚ} (hp : Dyadic p) (hq : Dyadic q) : Dyadic (p + q) := by
  obtain ⟨n, k, hn⟩ := hp
  obtain ⟨m, j, hm⟩ := hq
  refine ⟨n * 2 ^ j + m * 2 ^ k, k + j, ?_⟩
  push_cast
  rw [← hn, ← hm]
  ring

theorem dyadic_mul {p q : ℚ} (hp : Dyadic p) (hq : Dyadic q) : Dyadic (p * q) := by
  obtain ⟨n, k, hn⟩ := hp
  obtain ⟨m, j, hm⟩ := hq
  refine ⟨n * m, k + j, ?_⟩
  push_cast
  rw [← hn, ← hm]
  ring

theorem not_dyadic_of_three_mul {p : ℚ} (h : 3 * p = 1) : ¬ Dyadic p := by
  rintro ⟨n, k, hn⟩
  have h1 : ((3 * n : ℤ) : ℚ) = ((2 ^ k : ℤ) : ℚ) := by
    push_cast
    rw [← hn, ← mul_assoc, h, one_mul]
  have h2 : 3 * n = (2 : ℤ) ^ k := by exact_mod_cast h1
  have h3 : (3 : ℤ) ∣ 2 ^ k := ⟨n, h2.symm⟩
  have h4 : (3 : ℤ) ∣ 2 := Prime.dvd_of_dvd_pow Int.prime_three h3
  omega

theorem prob_dyadic (a b c : ℚ) (ha : Dyadic a) (hb : Dyadic b) (hc : Dyadic c)
    (good : List QuestionRecord → Bool) (run : SortRun) : Dyadic (run.prob a b c good) := by
  induction run with
  | done result =>
    unfold SortRun.prob
    split
    · exact ⟨1, 0, by norm_num⟩
    · exact ⟨0, 0, by norm_num⟩
  | compare negative zero positive ihn ihz ihp =>
    unfold SortRun.prob
    exact dyadic_add (dyadic_add (dyadic_mul ha ihn) (dyadic_mul hb ihz)) (dyadic_mul hc ihp)

theorem prob_first_total (a b c : ℚ) (hsum : a + b + c = 1) (x y z : QuestionRecord)
    (hxy : x ≠ y) (hxz : x ≠ z) (hyz : y ≠ z) (run : SortRun)
    (hrun : run.Rearranges [x, y, z]) :
    getRandomQuestionsProb a b c run 1 [x] + getRandomQuestionsProb a b c run 1 [y] +
      getRandomQuestionsProb a b c run 1 [z] = 1 := by
  unfold getRandomQuestionsProb
  induction run with
  | done result =>
    have hperm : result.Perm [x, y, z] := hrun
    cases result with
    | nil => exact absurd hperm.length_eq (by simp)
    | cons r0 rest =>
      have hmem : r0 ∈ [x, y, z] := hperm.subset (List.mem_cons_self r0 rest)
      simp only [List.mem_cons, List.mem_singleton, List.not_mem_nil, or_false] at hmem
      rcases hmem with h | h | h
      · subst h
        simp [SortRun.prob, hxy, hxz]
      · subst h
        simp [SortRun.prob, hxy.symm, hyz]
      · subst h
        simp [SortRun.prob, hxz.symm, hyz.symm]
  | compare negative zero positive ihn ihz ihp =>
    obtain ⟨hn, hz, hp⟩ := hrun
    have en := ihn hn
    have ez := ihz hz
    have ep := ihp hp
    simp only [SortRun.prob]
    linear_combination a * en + b * ez + c * ep + hsum

/-- C17, evaluated on the code: `getRandomQuestions` sorts with the comparator
`() => 0.5 - Math.random()`.  Whatever deterministic sorting procedure runs it (any finite
decision tree on the comparator signs that ends in rearrangements of the input) and
whatever dyadic probabilities the three signs have (one half, zero, one half for an ideal
`Math.random()`), on a list of three distinct records and count 1 the three one-element
subsets are not returned with the same probability. -/
theorem sort_comparator_sampling_not_uniform (a b c : ℚ) (ha : Dyadic a) (hb : Dyadic b)
    (hc : Dyadic c) (hsum : a + b + c = 1) (x y z : QuestionRecord)
    (hxy : x ≠ y) (hxz : x ≠ z) (hyz : y ≠ z) (run : SortRun)
    (hrun : run.Rearranges [x, y, z]) :
    ¬ (getRandomQuestionsProb a b c run 1 [x] = getRandomQuestionsProb a b c run 1 [y] ∧
      getRandomQuestionsProb a b c run 1 [y] = getRandomQuestionsProb a b c run 1 [z]) := by
  rintro ⟨h1, h2⟩
  have htot := prob_first_total a b c hsum x y z hxy hxz hyz run hrun
  have h3 : 3 * getRandomQuestionsProb a b c run 1 [z] = 1 := by
    rw [h1, h2] at htot
    linear_combination htot
  exact not_dyadic_of_three_mul h3 (prob_dyadic a b c ha hb hc _ run)

/-- C17 at a concrete input: insertion sort of three records with a fair comparator returns
the first record alone with probability 3/8, the second with 3/8 and the third with 1/4. -/
theorem sort_comparator_sampling_not_uniform_witness :
    (insertionRun (mkRecord 1 1) (mkRecord 2 1) (mkRecord 3 1)).Rearranges
        [mkRecord 1 1, mkRecord 2 1, mkRecord 3 1] ∧
      getRandomQuestionsProb (1 / 2) 0 (1 / 2)
        (insertionRun (mkRecord 1 1) (mkRecord 2 1) (mkRecord 3 1)) 1 [mkRecord 1 1] = 3 / 8 ∧
      getRandomQuestionsProb (1 / 2) 0 (1 / 2)
        (insertionRun (mkRecord 1 1) (mkRecord 2 1) (mkRecord 3 1)) 1 [mkRecord 2 1] = 3 / 8 ∧
      getRandomQuestionsProb (1 / 2) 0 (1 / 2)
        (insertionRun (mkRecord 1 1) (mkRecord 2 1) (mkRecord 3 1)) 1 [mkRecord 3 1] = 1 / 4 ∧
      ¬ (getRandomQuestionsProb (1 / 2) 0 (1 / 2)
            (insertionRun (mkRecord 1 1) (mkRecord 2 1) (mkRecord 3 1)) 1 [mkRecord 1 1] =
          getRandomQuestionsProb (1 / 2) 0 (1 / 2)
            (insertionRun (mkRecord 1 1) (mkRecord 2 1) (mkRecord 3 1)) 1 [mkRecord 2 1] ∧
        getRandomQuestionsProb (1 / 2) 0 (1 / 2)
            (insertionRun (mkRecord 1 1) (mkRecord 2 1) (mkRecord 3 1)) 1 [mkRecord 2 1] =
          getRandomQuestionsProb (1 / 2) 0 (1 / 2)
            (insertionRun (mkRecord 1 1) (mkRecord 2 1) (mkRecord 3 1)) 1 [mkRecord 3 1]) :=
  have hr : (insertionRun (mkRecord 1 1) (mkRecord 2 1) (mkRecord 3 1)).Rearranges
      [mkRecord 1 1, mkRecord 2 1, mkRecord 3 1] := by
    simp only [insertionRun, SortRun.Rearranges]
    decide
  ⟨hr,
    by simp [getRandomQuestionsProb, insertionRun, SortRun.prob, mkRecord]; norm_num,
    by simp [getRandomQuestionsProb, insertionRun, SortRun.prob, mkRecord]; norm_num,
    by simp [getRandomQuestionsProb, insertionRun, SortRun.prob, mkRecord]; norm_num,
    sort_comparator_sampling_not_uniform (1 / 2) 0 (1 / 2) ⟨1, 1, by norm_num⟩
      ⟨0, 0, by norm_num⟩ ⟨1, 1, by norm_num⟩ (by norm_num) (mkRecord 1 1) (mkRecord 2 1)
      (mkRecord 3 1) (by decide) (by decide) (by decide) _ hr⟩

/-! ## C19 -/

theorem Heap.read_old (l e : List (List QuestionRecord)) (r : Nat) (hr : r < l.length) :
    (Heap.mk (l ++ e)).read r = (Heap.mk l).read r := by
  simp [Heap.read, List.getD_eq_getElem?_getD, List.getElem?_append_left hr]

theorem Heap.read_new (l e : List (List QuestionRecord)) (k : Nat) :
    (Heap.mk (l ++ e)).read (l.length + k) = e.getD k [] := by
  simp [Heap.read, List.getD_eq_getElem?_getD, List.getElem?_append_right]

theorem Heap.read_first (l e : List (List QuestionRecord)) :
    (Heap.mk (l ++ e)).read l.length = e.getD 0 [] := by
  have h := Heap.read_new l e 0
  simpa using h

theorem Heap.alloc_nf (l e : List (List QuestionRecord)) (a : List QuestionRecord) :
    (Heap.mk (l ++ e)).alloc a = (⟨l ++ (e ++ [a])⟩, l.length + e.length) := by
  simp [Heap.alloc]

theorem Heap.sortInPlace_nf (l e : List (List QuestionRecord)) (k : Nat) (s : Shuffle) :
    (Heap.mk (l ++ e)).sortInPlace (l.length + k) s =
      ⟨l ++ e.set k (s.apply (e.getD k []))⟩ := by
  unfold Heap.sortInPlace
  rw [Heap.read_new, List.set_append_right _ _ (Nat.le_add_right _ _), Nat.add_sub_cancel_left]

theorem Heap.read_of_extends {h h' : Heap} (e : h.Extends h') {r : Nat}
    (hr : r < h.arrays.length) : h'.read r = h.read r := by
  obtain ⟨extra, he⟩ := e
  cases h with
  | mk l =>
    cases h' with
    | mk l' =>
      simp only at he
      subst he
      exact Heap.read_old l extra r hr

theorem Heap.extends_mk (l e : List (List QuestionRecord)) :
    (Heap.mk (l ++ [])).Extends ⟨l ++ e⟩ :=
  ⟨e, by simp⟩

theorem InPlace.getRandomQuestions_nf (s : Shuffle) (l e : List (List QuestionRecord))
    (q n : Nat) :
    InPlace.getRandomQuestions s ⟨l ++ e⟩ q n =
      (⟨l ++ (e ++ [s.apply ((Heap.mk (l ++ e)).read q),
          QuestionPaper.getRandomQuestions s ((Heap.mk (l ++ e)).read q) n])⟩,
        l.length + (e.length + 1)) := by
  unfold InPlace.getRandomQuestions
  simp only [Heap.alloc_nf, Heap.sortInPlace_nf, Heap.read_new]
  simp [QuestionPaper.getRandomQuestions, Nat.add_assoc]

theorem InPlace.generateMid1Questions_spec (h : Heap) (b : Nat) (hb : b < h.arrays.length)
    (s1 s2 s3 s4 : Shuffle) :
    h.Extends (InPlace.generateMid1Questions h b s1 s2 s3 s4).1 ∧
      Except.map (InPlace.generateMid1Questions h b s1 s2 s3 s4).1.read
          (InPlace.generateMid1Questions h b s1 s2 s3 s4).2 =
        QuestionPaper.generateMid1Questions (h.read b) s1 s2 s3 s4 := by
  obtain ⟨l⟩ := h
  have hl : (Heap.mk l) = ⟨l ++ []⟩ := by simp
  unfold InPlace.generateMid1Questions QuestionPaper.generateMid1Questions
  rw [hl]
  simp only [Heap.alloc_nf, Heap.read_old _ _ _ hb, List.nil_append, List.length_nil,
    List.length_cons, List.cons_append, Nat.add_zero, Nat.zero_add, Heap.read_new,
    Heap.read_first, List.getD_cons_zero, List.getD_cons_succ, InPlace.getRandomQuestions_nf]
  split
  · exact ⟨Heap.extends_mk l _, rfl⟩
  · refine ⟨Heap.extends_mk l _, ?_⟩
    simp [Except.map, Heap.read_new]

theorem InPlace.generateMid2Questions_spec (h : Heap) (b : Nat) (hb : b < h.arrays.length)
    (s1 s2 s3 s4 : Shuffle) :
    h.Extends (InPlace.generateMid2Questions h b s1 s2 s3 s4).1 ∧
      Except.map (InPlace.generateMid2Questions h b s1 s2 s3 s4).1.read
          (InPlace.generateMid2Questions h b s1 s2 s3 s4).2 =
        QuestionPaper.generateMid2Questions (h.read b) s1 s2 s3 s4 := by
  obtain ⟨l⟩ := h
  have hl : (Heap.mk l) = ⟨l ++ []⟩ := by simp
  unfold InPlace.generateMid2Questions QuestionPaper.generateMid2Questions
  rw [hl]
  simp only [Heap.alloc_nf, Heap.read_old _ _ _ hb, List.nil_append, List.length_nil,
    List.length_cons, List.cons_append, Nat.add_zero, Nat.zero_add, Heap.read_new,
    Heap.read_first, List.getD_cons_zero, List.getD_cons_succ, InPlace.getRandomQuestions_nf]
  split
  · exact ⟨Heap.extends_mk l _, rfl⟩
  · refine ⟨Heap.extends_mk l _, ?_⟩
    simp [Except.map, Heap.read_new]

theorem InPlace.generateSpecialMidQuestions_spec (h : Heap) (b : Nat)
    (hb : b < h.arrays.length) (m : JSValue) (s1 s2 s3 : Shuffle) :
    h.Extends (InPlace.generateSpecialMidQuestions h b m s1 s2 s3).1 ∧
      Except.map (InPlace.generateSpecialMidQuestions h b m s1 s2 s3).1.read
          (InPlace.generateSpecialMidQuestions h b m s1 s2 s3).2 =
        QuestionPaper.generateSpecialMidQuestions (h.read b) m s1 s2 s3 := by
  obtain ⟨l⟩ := h
  have hl : (Heap.mk l) = ⟨l ++ []⟩ := by simp
  unfold InPlace.generateSpecialMidQuestions QuestionPaper.generateSpecialMidQuestions
  rw [hl]
  simp only [Heap.alloc_nf, Heap.read_old _ _ _ hb, List.nil_append, List.length_nil,
    List.length_cons, List.cons_append, Nat.add_zero, Nat.zero_add, Heap.read_new,
    Heap.read_first, List.getD_cons_zero, List.getD_cons_succ, InPlace.getRandomQuestions_nf,
    Heap.sortInPlace_nf]
  split
  · exact ⟨Heap.extends_mk l _, rfl⟩
  · split
    · exact ⟨Heap.extends_mk l _, rfl⟩
    · refine ⟨Heap.extends_mk l _, ?_⟩
      simp [Except.map, Heap.read_new]

theorem InPlace.finish_spec (h : Heap) (b : Nat) (out : Heap × Except Message Nat)
    (pure : Except Message (List QuestionRecord)) (hext : h.Extends out.1)
    (hmap : Except.map out.1.read out.2 = pure) :
    h.Extends (InPlace.finish b out).1 ∧ (InPlace.finish b out).2.1 = some b ∧
      (∀ r, pure = .ok r → (InPlace.finish b out).2.2 = respond r) ∧
      (∀ e, pure = .error e → (InPlace.finish b out).2.2 = generateCatch e) := by
  obtain ⟨h', res⟩ := out
  subst hmap
  cases res with
  | ok r =>
    refine ⟨hext, rfl, fun r' hr => ?_, fun e he => ?_⟩
    · cases hr
      rfl
    · cases he
  | error e =>
    refine ⟨hext, rfl, fun r' hr => ?_, fun e' he => ?_⟩
    · cases hr
    · cases he
      rfl

theorem Heap.extends_refl (h : Heap) : h.Extends h := ⟨[], by simp⟩

theorem InPlace.generate_spec (h : Heap) (b : Nat) (hb : b < h.arrays.length)
    (body : RequestBody) (s1 s2 s3 s4 : Shuffle) :
    h.Extends (InPlace.generate h (some b) body s1 s2 s3 s4).1 ∧
      (InPlace.generate h (some b) body s1 s2 s3 s4).2.1 = some b ∧
      (InPlace.generate h (some b) body s1 s2 s3 s4).2.2 =
        QuestionPaper.generate (some (h.read b)) body s1 s2 s3 s4 := by
  unfold InPlace.generate QuestionPaper.generate
  simp only
  split_ifs
  · have hf := InPlace.finish_spec h b _ _
      (InPlace.generateMid1Questions_spec h b hb s1 s2 s3 s4).1
      (InPlace.generateMid1Questions_spec h b hb s1 s2 s3 s4).2
    cases hp : QuestionPaper.generateMid1Questions (h.read b) s1 s2 s3 s4 with
    | ok r => exact ⟨hf.1, hf.2.1, hf.2.2.1 r hp⟩
    | error e => exact ⟨hf.1, hf.2.1, hf.2.2.2 e hp⟩
  · have hf := InPlace.finish_spec h b _ _
      (InPlace.generateMid2Questions_spec h b hb s1 s2 s3 s4).1
      (InPlace.generateMid2Questions_spec h b hb s1 s2 s3 s4).2
    cases hp : QuestionPaper.generateMid2Questions (h.read b) s1 s2 s3 s4 with
    | ok r => exact ⟨hf.1, hf.2.1, hf.2.2.1 r hp⟩
    | error e => exact ⟨hf.1, hf.2.1, hf.2.2.2 e hp⟩
  · exact ⟨Heap.extends_refl h, rfl, rfl⟩
  · have hf := InPlace.finish_spec h b _ _
      (InPlace.generateSpecialMidQuestions_spec h b hb body.mainUnit s1 s2 s3).1
      (InPlace.generateSpecialMidQuestions_spec h b hb body.mainUnit s1 s2 s3).2
    cases hp : QuestionPaper.generateSpecialMidQuestions (h.read b) body.mainUnit s1 s2 s3 with
    | ok r => exact ⟨hf.1, hf.2.1, hf.2.2.1 r hp⟩
    | error e => exact ⟨hf.1, hf.2.1, hf.2.2.2 e hp⟩
  · exact ⟨Heap.extends_refl h, rfl, rfl⟩

/-- C19: selection only reads the bank.  For every memory, every bank array in it, every
generate request (any paper type, any main unit, succeeding or failing) and every shuffle
outcome: after the request the module variable still refers to the same array, every array
that existed before the request (the bank among them) holds the same records in the same
order, and the response is the one computed from the bank's records alone.  The array that
`getRandomQuestions` sorts is a fresh copy: after the call every earlier array is unchanged
and the returned array holds the first `count` elements of the shuffled copy.  The same
holds for the array that `generateSpecialMidQuestions` sorts. -/
theorem generate_only_reads_bank (h : Heap) (b : Nat) (hb : b < h.arrays.length) :
    (∀ (body : RequestBody) (s1 s2 s3 s4 : Shuffle),
      (InPlace.generate h (some b) body s1 s2 s3 s4).2.1 = some b ∧
        (∀ r, r < h.arrays.length →
          (InPlace.generate h (some b) body s1 s2 s3 s4).1.read r = h.read r) ∧
        (InPlace.generate h (some b) body s1 s2 s3 s4).1.read b = h.read b ∧
        (InPlace.generate h (some b) body s1 s2 s3 s4).2.2 =
          generate (some (h.read b)) body s1 s2 s3 s4) ∧
    (∀ (s : Shuffle) (count : Nat),
      (∀ r, r < h.arrays.length →
          (InPlace.getRandomQuestions s h b count).1.read r = h.read r) ∧
        (InPlace.getRandomQuestions s h b count).1.read
            (InPlace.getRandomQuestions s h b count).2 =
          getRandomQuestions s (h.read b) count) ∧
    (∀ (m : JSValue) (s1 s2 s3 : Shuffle),
      (∀ r, r < h.arrays.length →
          (InPlace.generateSpecialMidQuestions h b m s1 s2 s3).1.read r = h.read r) ∧
        Except.map (InPlace.generateSpecialMidQuestions h b m s1 s2 s3).1.read
            (InPlace.generateSpecialMidQuestions h b m s1 s2 s3).2 =
          generateSpecialMidQuestions (h.read b) m s1 s2 s3) := by
  refine ⟨?_, ?_, ?_⟩
  · intro body s1 s2 s3 s4
    obtain ⟨hext, hvar, hresp⟩ := InPlace.generate_spec h b hb body s1 s2 s3 s4
    exact ⟨hvar, fun r hr => Heap.read_of_extends hext hr, Heap.read_of_extends hext hb,
      hresp⟩
  · intro s count
    obtain ⟨l⟩ := h
    have hl : (Heap.mk l) = ⟨l ++ []⟩ := by simp
    have hnf := InPlace.getRandomQuestions_nf s l [] b count
    rw [← hl] at hnf
    rw [hnf]
    refine ⟨fun r hr => Heap.read_old l _ r hr, ?_⟩
    simp [Heap.read_new]
  · intro m s1 s2 s3
    obtain ⟨hext, hmap⟩ := InPlace.generateSpecialMidQuestions_spec h b hb m s1 s2 s3
    exact ⟨fun r hr => Heap.read_of_extends hext hr, hmap⟩

/-- C19 at a concrete input: the memory `heapSpecial`, whose array 1 is the bank
`bankSpecial`, and a `special` request with main unit 3 under reversing shuffles. -/
theorem generate_only_reads_bank_witness :
    1 < heapSpecial.arrays.length ∧
      (InPlace.generate heapSpecial (some 1) ⟨.string "special", unitNo 3⟩ .reversal
          .reversal .reversal .reversal).2.1 = some 1 ∧
      (InPlace.generate heapSpecial (some 1) ⟨.string "special", unitNo 3⟩ .reversal
          .reversal .reversal .reversal).1.read 1 = bankSpecial ∧
      (InPlace.generate heapSpecial (some 1) ⟨.string "special", unitNo 3⟩ .reversal
          .reversal .reversal .reversal).2.2 =
        generate (some bankSpecial) ⟨.string "special", unitNo 3⟩ .reversal .reversal
          .reversal .reversal :=
  have w := (generate_only_reads_bank heapSpecial 1 (by decide)).1
    ⟨.string "special", unitNo 3⟩ .reversal .reversal .reversal .reversal
  ⟨by decide, w.1, w.2.2.1, w.2.2.2⟩

end QuestionPaper
